import Mathlib

/-!
# Verification of the ceodreamer session orchestrator

Shallow embedding of `src/modules/sandbox/services/sandbox.service.ts`
(class `SandboxService`), of `src/modules/shared/services/base.service.ts`
(the `ensureInitialized` guard) and of the HTTP route
`src/app/api/projects/[projectId]/sandbox/route.ts` (`POST`).

Modelling choices:
* A sandbox object is represented by its remote handle (`sandboxId : String`).
* The in-process state of the service (`activeSandboxes`, `sandboxTimeouts`,
  `isInitialized`) is an explicit record `SBState`; JS `Map`s become
  association lists with exact-key get/set/delete.
* All remote I/O (E2B provider calls and Supabase queries) is resolved by an
  oracle `Env` fixed for the duration of one call: each field gives the
  outcome the remote side would deliver.  `Except Unit α` encodes
  "throws or returns α"; Supabase never throws, it returns `{data, error}`,
  so its outcomes are encoded by `Option`/`Bool` fields.
* Every operation returns an `Outcome α = (Except SvcError α) × SBState ×
  List Ev`: the JS return-or-throw, the mutated service state, and the trace
  of remote calls / analytics emissions that were issued (in order).
* `setTimeout`-scheduled timers are modelled by the `sandboxTimeouts` map
  (projectId ↦ scheduled duration in ms); the firing of a timer is the
  function `onSandboxTimeoutFire`, the body of the callback passed to
  `setTimeout` in `setSandboxTimeout` (sandbox.service.ts lines 300-305).
* For the concurrency analysis (§5 of the spec) `stepEnsure` gives a
  small-step version of `getOrCreateProjectSandbox` whose atomic blocks are
  the maximal synchronous segments between `await` points, so that two
  in-flight calls can be interleaved.
-/

namespace CeoDreamer

/-- `SANDBOX_TIMEOUT` from sandbox.service.ts line 9: one hour in ms. -/
def SANDBOX_TIMEOUT : Nat := 60 * 60 * 1000

/-! ## Association-list maps (JS `Map` with string keys) -/

/-- `Map.get`: first binding of the key, if any. -/
def mget (k : String) : List (String × α) → Option α
  | [] => none
  | (k', v) :: rest => if k' = k then some v else mget k rest

/-- `Map.delete`: remove every binding of the key. -/
def mdel (k : String) : List (String × α) → List (String × α)
  | [] => []
  | (k', v) :: rest => if k' = k then mdel k rest else (k', v) :: mdel k rest

/-- `Map.set`: bind the key, replacing any previous binding. -/
def mset (k : String) (v : α) (m : List (String × α)) : List (String × α) :=
  (k, v) :: mdel k m

/-- Number of bindings of a key (a well-formed JS map has at most one). -/
def keyCount (k : String) : List (String × α) → Nat
  | [] => 0
  | (k', _) :: rest => (if k' = k then 1 else 0) + keyCount k rest

/-! ## Errors, events, state -/

/-- Raised values.  `svc service code msg` is a `ServiceError`
(base.service.ts lines 77-87); `notInitialized` the plain `Error` of
`ensureInitialized` (base.service.ts line 69); `raw` any other thrown value
(a provider/SDK rejection), identified by a tag for the model. -/
inductive SvcError where
  | notInitialized (msg : String)
  | svc (service code msg : String)
  | raw (tag : String)
deriving DecidableEq, Repr

/-- `error.message` as read by the route handler. -/
def SvcError.message : SvcError → String
  | .notInitialized m => m
  | .svc _ _ m => m
  | .raw t => t

/-- Observable remote actions, in issue order.  `storeUpdateSandboxId` /
`storeUpdateActivity` carry the `err` flag of the Supabase response (the
code only logs it), `storeUpdateSandboxId` also the written value
(`none` = SQL null). -/
inductive Ev where
  | isRunning (h : String)
  | setTimeoutCall (h : String) (ms : Nat)
  | resumeCall (h : String) (ms : Nat)
  | createCall (template : String) (ms : Nat)
  | pauseCall (h : String)
  | killCall (h : String)
  | runCommand (h cmd : String)
  | writeFile (h path content : String)
  | runCodeCall (h code : String)
  | getHostCall (h : String) (port : Nat)
  | storeSelect (p : String)
  | storeUpdateSandboxId (p : String) (v : Option String) (err : Bool)
  | storeUpdateActivity (p : String) (err : Bool)
  | analyticsTrack (url p : String)
deriving DecidableEq, Repr

/-- In-process state of `SandboxService`: the two private maps
(sandbox.service.ts lines 54-55) and the `isInitialized` flag inherited
from `BaseService`. -/
structure SBState where
  activeSandboxes : List (String × String)
  sandboxTimeouts : List (String × Nat)
  isInitialized : Bool
deriving DecidableEq, Repr

/-- Result of `sandbox.runCode` (destructured as `{logs, error, results}`,
sandbox.service.ts line 363). -/
structure RunCodeRes where
  stdout : List String
  stderr : List String
  runtimeErr : Option String
  results : List String
deriving DecidableEq, Repr

/-- Oracle fixing the outcome of every remote interaction during one call.
`Except Unit α` = the promise rejects, or resolves with `α`. -/
structure Env where
  /-- `sandbox.isRunning()` outcome, per handle. -/
  isRunning : String → Except Unit Bool
  /-- `sandbox.setTimeout(ms)` outcome, per handle. -/
  setTimeoutRes : String → Except Unit Unit
  /-- `Sandbox.resume(id, ...)` outcome: rejects, or the handle of the
  resumed sandbox. -/
  resumeRes : String → Except Unit String
  /-- `Sandbox.create(template, ...)` outcome: rejects, or the new handle. -/
  createRes : Except Unit String
  /-- `sandbox.pause()` outcome: rejects, or the (possibly rotated) id. -/
  pauseRes : String → Except Unit String
  /-- `sandbox.kill()` outcome, per handle. -/
  killRes : String → Except Unit Unit
  /-- `sandbox.commands.run(cmd)` outcome. -/
  runCommandRes : Except Unit Unit
  /-- `sandbox.files.write(path, code)` outcome. -/
  writeFileRes : Except Unit Unit
  /-- `sandbox.runCode(code)` outcome. -/
  runCodeRes : Except Unit RunCodeRes
  /-- `sandbox.getHost(port)` (synchronous, never throws). -/
  getHost : String → Nat → String
  /-- whether `this.deps.supabase` is non-null. -/
  hasSupabase : Bool
  /-- Supabase `select('sandbox_id').eq('id', p).single()`: `none` = the
  response carried an error (the code logs it and `project` stays null);
  `some v` = a row whose `sandbox_id` column is `v`. -/
  selectRes : String → Option (Option String)
  /-- error flag of the `update({sandbox_id, last_activity})` after create. -/
  updateSandboxIdErr : Bool
  /-- error flag of the `update({sandbox_id})` in `pauseProject`. -/
  updatePausedErr : Bool
  /-- error flag of the `update({sandbox_id: null})` in `killProject`. -/
  updateClearErr : Bool
  /-- error flag of the `update({last_activity})` in `updateProjectActivity`. -/
  updateActivityErr : Bool
  /-- whether `this.analyticsService` is non-null after initialization. -/
  hasAnalytics : Bool

instance {ε α : Type} [DecidableEq ε] [DecidableEq α] :
    DecidableEq (Except ε α) := fun x y =>
  match x, y with
  | .ok a, .ok b =>
      if h : a = b then .isTrue (by rw [h])
      else .isFalse (by intro he; cases he; exact h rfl)
  | .error a, .error b =>
      if h : a = b then .isTrue (by rw [h])
      else .isFalse (by intro he; cases he; exact h rfl)
  | .ok _, .error _ => .isFalse (by intro he; cases he)
  | .error _, .ok _ => .isFalse (by intro he; cases he)

/-- Outcome of one service operation: JS return-or-throw, state after the
call, trace of remote actions issued (also on the throwing paths). -/
abbrev Outcome (α : Type) := Except SvcError α × SBState × List Ev

/-- The error thrown by `ensureInitialized` (base.service.ts line 69) for
`SandboxService`. -/
def notInitErr : SvcError :=
  .notInitialized "SandboxService is not initialized. Call initialize() first."

/-- The wrap applied by the outer catch of `getOrCreateProjectSandbox`
(sandbox.service.ts lines 179-186). -/
def svcCreateErr (projectId : String) : SvcError :=
  .svc "SandboxService" "SANDBOX_CREATE_ERROR"
    ("Failed to create sandbox for project " ++ projectId)

/-- The wrap applied by the catch of `pauseProject` (lines 212-219). -/
def svcPauseErr (projectId : String) : SvcError :=
  .svc "SandboxService" "SANDBOX_PAUSE_ERROR"
    ("Failed to pause sandbox for project " ++ projectId)

/-- The wrap applied by the catch of `processFragment` (lines 391-398). -/
def svcFragmentErr (projectId : String) : SvcError :=
  .svc "SandboxService" "FRAGMENT_PROCESSING_ERROR"
    ("Failed to process fragment for project " ++ projectId)

/-! ## Timeout scheduler (private helpers, sandbox.service.ts 295-320) -/

/-- `clearSandboxTimeout`: cancel the project's timer, if any (lines 310-316). -/
def clearSandboxTimeout (projectId : String) (s : SBState) : SBState :=
  { s with sandboxTimeouts := mdel projectId s.sandboxTimeouts }

/-- `setSandboxTimeout`: clear any existing timer, then arm a fresh timer of
`SANDBOX_TIMEOUT` ms whose callback pauses the project (lines 295-308). -/
def setSandboxTimeout (projectId : String) (s : SBState) : SBState :=
  let s1 := clearSandboxTimeout projectId s
  { s1 with sandboxTimeouts := mset projectId SANDBOX_TIMEOUT s1.sandboxTimeouts }

/-- `resetSandboxTimeout` just delegates to `setSandboxTimeout` (318-320). -/
def resetSandboxTimeout (projectId : String) (s : SBState) : SBState :=
  setSandboxTimeout projectId s

/-! ## getOrCreateProjectSandbox (sandbox.service.ts 81-187) -/

/-- The create tier (lines 142-177): `Sandbox.create`, then the
`update({sandbox_id, last_activity})` whose error is only logged
("Continue anyway"), then register in `activeSandboxes` and arm the timer.
A create rejection reaches the outer catch and is wrapped.  `pre` carries
the events already issued by the enclosing call. -/
def createTier (env : Env) (projectId templateId : String) (pre : List Ev)
    (s : SBState) : Outcome String :=
  match env.createRes with
  | .ok h =>
      (.ok h,
       setSandboxTimeout projectId
         { s with activeSandboxes := mset projectId h s.activeSandboxes },
       pre ++ [.createCall templateId SANDBOX_TIMEOUT,
               .storeUpdateSandboxId projectId (some h) env.updateSandboxIdErr])
  | .error _ =>
      (.error (svcCreateErr projectId), s,
       pre ++ [.createCall templateId SANDBOX_TIMEOUT])

/-- Lines 107-177: the `NO_SUPABASE` guard, the `sandbox_id` select (error
only logged), the resume tier whose rejection falls through to the create
tier, and the create tier itself.  The `NO_SUPABASE` `ServiceError` is
itself caught by the outer catch and wrapped into `SANDBOX_CREATE_ERROR`. -/
def resumeOrCreate (env : Env) (projectId templateId : String) (pre : List Ev)
    (s : SBState) : Outcome String :=
  if env.hasSupabase then
    match env.selectRes projectId with
    | some (some sid) =>
        (match env.resumeRes sid with
          | .ok h =>
              (.ok h,
               setSandboxTimeout projectId
                 { s with activeSandboxes := mset projectId h s.activeSandboxes },
               pre ++ [.storeSelect projectId, .resumeCall sid SANDBOX_TIMEOUT])
          | .error _ =>
              createTier env projectId templateId
                (pre ++ [.storeSelect projectId, .resumeCall sid SANDBOX_TIMEOUT]) s)
    | _ => createTier env projectId templateId (pre ++ [.storeSelect projectId]) s
  else (.error (svcCreateErr projectId), s, pre)

/-- `getOrCreateProjectSandbox(projectId, templateId, teamId, accessToken)`
(lines 81-187).  `ensureInitialized`; fast path: if a registered sandbox's
`isRunning()` resolves true and `setTimeout(SANDBOX_TIMEOUT)` resolves, rearm
the local timer and return it unchanged; any rejection in that inner try, or
`isRunning() = false`, falls through (without touching the registry entry)
to `resumeOrCreate`.  `teamId`/`accessToken` only feed `Sandbox.create`'s
metadata/headers and are observationally inert here. -/
def getOrCreateProjectSandbox (env : Env) (projectId templateId : String)
    (teamId accessToken : Option String) (s : SBState) : Outcome String :=
  if s.isInitialized then
    match mget projectId s.activeSandboxes with
    | some h =>
        (match env.isRunning h with
          | .ok true =>
              (match env.setTimeoutRes h with
                | .ok _ =>
                    (.ok h, resetSandboxTimeout projectId s,
                     [.isRunning h, .setTimeoutCall h SANDBOX_TIMEOUT])
                | .error _ =>
                    resumeOrCreate env projectId templateId
                      [.isRunning h, .setTimeoutCall h SANDBOX_TIMEOUT] s)
          | .ok false => resumeOrCreate env projectId templateId [.isRunning h] s
          | .error _ => resumeOrCreate env projectId templateId [.isRunning h] s)
    | none => resumeOrCreate env projectId templateId [] s
  else (.error notInitErr, s, [])

/-! ## pauseProject, killProject, killAllSandboxes (189-264) -/

/-- `pauseProject` (lines 189-221): no-op when the project is not
registered; otherwise `sandbox.pause()` — a rejection is wrapped into
`SANDBOX_PAUSE_ERROR` — then the best-effort `update({sandbox_id})`, then
remove the registry entry and cancel the timer. -/
def pauseProject (env : Env) (projectId : String) (s : SBState) : Outcome Unit :=
  if s.isInitialized then
    match mget projectId s.activeSandboxes with
    | none => (.ok (), s, [])
    | some h =>
        match env.pauseRes h with
        | .error _ => (.error (svcPauseErr projectId), s, [.pauseCall h])
        | .ok newId =>
            (.ok (),
             clearSandboxTimeout projectId
               { s with activeSandboxes := mdel projectId s.activeSandboxes },
             .pauseCall h ::
               (if env.hasSupabase then
                 [.storeUpdateSandboxId projectId (some newId) env.updatePausedErr]
               else []))
  else (.error notInitErr, s, [])

/-- `killProject` (lines 223-248).  If registered: `sandbox.kill()`; on
resolution the registry entry and timer are removed; on rejection the catch
only logs — the `delete`/`clearSandboxTimeout` lines sit after the `await`
inside the try, so they are skipped.  Afterwards, unconditionally, the
persisted `sandbox_id` is set to null (error only logged).  Never throws
(past the init guard). -/
def killProject (env : Env) (projectId : String) (s : SBState) : Outcome Unit :=
  if s.isInitialized then
    let step1 : SBState × List Ev :=
      match mget projectId s.activeSandboxes with
      | none => (s, [])
      | some h =>
          match env.killRes h with
          | .ok _ =>
              (clearSandboxTimeout projectId
                 { s with activeSandboxes := mdel projectId s.activeSandboxes },
               [.killCall h])
          | .error _ => (s, [.killCall h])
    let step2 : List Ev :=
      if env.hasSupabase then
        [.storeUpdateSandboxId projectId none env.updateClearErr]
      else []
    (.ok (), step1.1, step1.2 ++ step2)
  else (.error notInitErr, s, [])

/-- The body of `killAllSandboxes`' `Promise.all` (lines 253-263), run over
the snapshot of registered project ids; each `killProject` sits in its own
try/catch whose handler only logs.  The `await`s are sequentialized in
issue order (the map callbacks are independent and only this service's two
maps are shared). -/
def killAllLoop (env : Env) : List String → SBState → SBState × List Ev
  | [], s => (s, [])
  | p :: rest, s =>
      match killProject env p s with
      | (_, s1, t1) =>
          let r := killAllLoop env rest s1
          (r.1, t1 ++ r.2)

/-- `killAllSandboxes` (lines 250-264). -/
def killAllSandboxes (env : Env) (s : SBState) : Outcome Unit :=
  if s.isInitialized then
    let r := killAllLoop env (s.activeSandboxes.map Prod.fst) s
    (.ok (), r.1, r.2)
  else (.error notInitErr, s, [])

/-- `getActiveSandbox` (lines 266-269). -/
def getActiveSandbox (projectId : String) (s : SBState) : Outcome (Option String) :=
  if s.isInitialized then (.ok (mget projectId s.activeSandboxes), s, [])
  else (.error notInitErr, s, [])

/-- Body of `cleanupInactiveSandboxes`' `Promise.all` (lines 274-289), over
the snapshot of registry entries: an entry whose `isRunning()` resolves
false or rejects is removed together with its timer. -/
def cleanupLoop (env : Env) : List (String × String) → SBState → SBState × List Ev
  | [], s => (s, [])
  | (p, h) :: rest, s =>
      let step : SBState × List Ev :=
        match env.isRunning h with
        | .ok true => (s, [.isRunning h])
        | .ok false =>
            (clearSandboxTimeout p
               { s with activeSandboxes := mdel p s.activeSandboxes },
             [.isRunning h])
        | .error _ =>
            (clearSandboxTimeout p
               { s with activeSandboxes := mdel p s.activeSandboxes },
             [.isRunning h])
      let r := cleanupLoop env rest step.1
      (r.1, step.2 ++ r.2)

/-- `cleanupInactiveSandboxes` (lines 271-292). -/
def cleanupInactiveSandboxes (env : Env) (s : SBState) : Outcome Unit :=
  if s.isInitialized then
    let r := cleanupLoop env s.activeSandboxes s
    (.ok (), r.1, r.2)
  else (.error notInitErr, s, [])

/-- The callback armed by `setSandboxTimeout` (lines 300-305): call
`pauseProject`, catching (and only logging) any rejection. -/
def onSandboxTimeoutFire (env : Env) (projectId : String) (s : SBState) :
    SBState × List Ev :=
  match pauseProject env projectId s with
  | (_, s1, t1) => (s1, t1)

/-! ## Fragment processing (sandbox.service.ts 322-442) -/

/-- The fields of `FragmentSchema` that `processFragment` reads. -/
structure FragmentSchema where
  template : String
  code : String
  file_path : String
  has_additional_dependencies : Bool
  install_dependencies_command : String
  additional_dependencies : List String
  port : Option Nat
deriving DecidableEq, Repr

/-- `FragmentProcessingAuth` (sandbox.service.ts 17-21). -/
structure FragmentProcessingAuth where
  userId : Option String
  teamId : Option String
  accessToken : Option String
deriving DecidableEq, Repr

/-- `ExecutionResult` tagged union: `ExecutionResultInterpreter` with
`sbxId/template/stdout/stderr/runtimeError/cellResults`, or
`ExecutionResultWeb` with `sbxId/template/url`. -/
inductive ExecutionResult where
  | interpreter (sbxId template : String) (stdout stderr : List String)
      (runtimeErr : Option String) (cellResults : List String)
  | web (sbxId template url : String)
deriving DecidableEq, Repr

/-- `fragment.port || 80` (line 377): JS `||`, so a port of 0 (falsy) and an
absent port both default to 80. -/
def fragmentPort (fragment : FragmentSchema) : Nat :=
  match fragment.port with
  | some q => if q = 0 then 80 else q
  | none => 80

/-- `updateProjectActivity` (lines 430-442): pick `authClient || supabase`;
if either exists, issue the `update({last_activity})`, whose error is only
logged.  `hasAuthClient` is `auth.accessToken` being present (line 334). -/
def activityEvs (env : Env) (projectId : String) (hasAuthClient : Bool) :
    List Ev :=
  if hasAuthClient || env.hasSupabase then
    [.storeUpdateActivity projectId env.updateActivityErr]
  else []

/-- Lines 359-389: branch on the template.  `"code-interpreter-v1"` runs
`sandbox.runCode(fragment.code || '')` (identity on strings) and builds an
`ExecutionResultInterpreter`; any other template computes
`https://${sandbox.getHost(fragment.port || 80)}` and builds an
`ExecutionResultWeb`.  Then lines 381-387: if the analytics service exists
and `(result as ExecutionResultWeb).url` is truthy (only web results carry
a url, and `"https://" ++ _` is never empty), emit `trackSandboxCreated`. -/
def execPhase (env : Env) (projectId : String) (fragment : FragmentSchema)
    (sbx : String) (pre : List Ev) (s : SBState) : Outcome ExecutionResult :=
  if fragment.template = "code-interpreter-v1" then
    match env.runCodeRes with
    | .error _ =>
        (.error (svcFragmentErr projectId), s, pre ++ [.runCodeCall sbx fragment.code])
    | .ok rc =>
        (.ok (.interpreter sbx fragment.template rc.stdout rc.stderr
                rc.runtimeErr rc.results),
         s, pre ++ [.runCodeCall sbx fragment.code])
  else
    (.ok (.web sbx fragment.template
            ("https://" ++ env.getHost sbx (fragmentPort fragment))),
     s,
     pre ++ [.getHostCall sbx (fragmentPort fragment)] ++
       (if env.hasAnalytics then
         [.analyticsTrack ("https://" ++ env.getHost sbx (fragmentPort fragment))
            projectId]
       else []))

/-- Lines 352-357: the `files.write` (a rejection reaches the outer catch),
then the best-effort activity update, then the execute/expose branch. -/
def writePhase (env : Env) (projectId : String) (fragment : FragmentSchema)
    (auth : FragmentProcessingAuth) (sbx : String) (pre : List Ev)
    (s : SBState) : Outcome ExecutionResult :=
  match env.writeFileRes with
  | .error _ =>
      (.error (svcFragmentErr projectId), s,
       pre ++ [.writeFile sbx fragment.file_path fragment.code])
  | .ok _ =>
      execPhase env projectId fragment sbx
        (pre ++ [.writeFile sbx fragment.file_path fragment.code] ++
          activityEvs env projectId auth.accessToken.isSome) s

/-- Lines 344-350: the optional dependency install (a rejection reaches the
outer catch), then the write/activity/execute sequence. -/
def deployPhase (env : Env) (projectId : String) (fragment : FragmentSchema)
    (auth : FragmentProcessingAuth) (sbx : String) (pre : List Ev)
    (s : SBState) : Outcome ExecutionResult :=
  if fragment.has_additional_dependencies then
    match env.runCommandRes with
    | .error _ =>
        (.error (svcFragmentErr projectId), s,
         pre ++ [.runCommand sbx fragment.install_dependencies_command])
    | .ok _ =>
        writePhase env projectId fragment auth sbx
          (pre ++ [.runCommand sbx fragment.install_dependencies_command]) s
  else writePhase env projectId fragment auth sbx pre s

/-- `processFragment(projectId, fragment, auth)` (lines 323-399):
`ensureInitialized`, then inside one try/catch: obtain the sandbox via
`getOrCreateProjectSandbox` (template taken from the fragment), deploy and
execute; any raised error is wrapped into `FRAGMENT_PROCESSING_ERROR`. -/
def processFragment (env : Env) (projectId : String)
    (fragment : FragmentSchema) (auth : FragmentProcessingAuth)
    (s : SBState) : Outcome ExecutionResult :=
  if s.isInitialized then
    match getOrCreateProjectSandbox env projectId fragment.template
        auth.teamId auth.accessToken s with
    | (.error _, s1, t1) => (.error (svcFragmentErr projectId), s1, t1)
    | (.ok sbx, s1, t1) => deployPhase env projectId fragment auth sbx t1 s1
  else (.error notInitErr, s, [])

/-- The `operation` argument of `executeSandboxOperation`. -/
inductive SbxOperation where
  | pause
  | resume
deriving DecidableEq, Repr

def SbxOperation.str : SbxOperation → String
  | .pause => "pause"
  | .resume => "resume"

/-- The wrap applied by the catch of `executeSandboxOperation` (420-427). -/
def svcOperationErr (operation : SbxOperation) (projectId : String) : SvcError :=
  .svc "SandboxService" "SANDBOX_OPERATION_ERROR"
    ("Failed to " ++ operation.str ++ " sandbox for project " ++ projectId)

/-- `executeSandboxOperation` (lines 401-428): "pause" delegates to
`pauseProject` (errors wrapped into `SANDBOX_OPERATION_ERROR`); "resume" is
an unconditional `{success: true}`. -/
def executeSandboxOperation (env : Env) (projectId : String)
    (operation : SbxOperation) (auth : Option FragmentProcessingAuth)
    (s : SBState) : Outcome Bool :=
  if s.isInitialized then
    match operation with
    | .pause =>
        match pauseProject env projectId s with
        | (.ok _, s1, t1) => (.ok true, s1, t1)
        | (.error _, s1, t1) => (.error (svcOperationErr operation projectId), s1, t1)
    | .resume => (.ok true, s, [])
  else (.error notInitErr, s, [])

/-! ## The HTTP route (src/app/api/projects/[projectId]/sandbox/route.ts) -/

/-- The request body's `operation` field. -/
inductive ReqOperation where
  | execute
  | pause
  | resume
deriving DecidableEq, Repr

/-- The parsed POST body (route.ts lines 29-41). -/
structure SandboxRequest where
  fragment : Option FragmentSchema
  operation : Option ReqOperation
  userID : Option String
  teamID : Option String
  accessToken : Option String

/-- Serialized response bodies produced by the route. -/
inductive ApiBody where
  | opResult (success : Bool)
  | execResult (r : ExecutionResult)
  | errBody (msg : String)
deriving DecidableEq, Repr

/-- An HTTP response: status code and JSON body. -/
structure ApiResponse where
  status : Nat
  body : ApiBody
deriving DecidableEq, Repr

/-- `POST` (route.ts lines 24-80): pause/resume go to
`executeSandboxOperation` (its `{success}` result serialized with status
200); otherwise a missing fragment is a 400 client error; otherwise
`processFragment`'s result is serialized with status 200; any error thrown
by either operation becomes `{error: error.message}` with status 500. -/
def routePOST (env : Env) (projectId : String) (req : SandboxRequest)
    (s : SBState) : ApiResponse × SBState × List Ev :=
  if req.operation = some .pause ∨ req.operation = some .resume then
    match executeSandboxOperation env projectId
        (if req.operation = some .pause then .pause else .resume)
        (some ⟨req.userID, req.teamID, req.accessToken⟩) s with
    | (.ok b, s1, t1) => (⟨200, .opResult b⟩, s1, t1)
    | (.error e, s1, t1) => (⟨500, .errBody e.message⟩, s1, t1)
  else
    match req.fragment with
    | none => (⟨400, .errBody "Fragment required"⟩, s, [])
    | some fr =>
        match processFragment env projectId fr
            ⟨req.userID, req.teamID, req.accessToken⟩ s with
        | (.ok r, s1, t1) => (⟨200, .execResult r⟩, s1, t1)
        | (.error e, s1, t1) => (⟨500, .errBody e.message⟩, s1, t1)

/-! ## Small-step presentation of `getOrCreateProjectSandbox`

For the concurrency analysis (§5 of the spec): the synchronous segments
between `await` points of `getOrCreateProjectSandbox` are atomic; a phase
names the `await` the call is parked on.  `stepEnsure` delivers that
`await`'s outcome (drawn from the call's `Env`) and runs the following
synchronous segment.  Registry/timer reads and writes happen inside the
atomic segments exactly where the source performs them. -/

/-- Continuation points of one in-flight `getOrCreateProjectSandbox` call. -/
inductive Phase where
  | start
  | probeWait (h : String)
  | extendWait (h : String)
  | selectWait
  | resumeWait (sid : String)
  | createWait
  | updateWait (h : String)
  | finished (r : Except SvcError String)
deriving DecidableEq, Repr

/-- One atomic step of an in-flight call (complete the pending `await`, run
synchronously to the next `await` or to return/throw). -/
def stepEnsure (env : Env) (projectId templateId : String) :
    Phase → SBState → Phase × SBState × List Ev
  | .start, s =>
      if s.isInitialized then
        match mget projectId s.activeSandboxes with
        | some h => (.probeWait h, s, [])
        | none =>
            if env.hasSupabase then (.selectWait, s, [])
            else (.finished (.error (svcCreateErr projectId)), s, [])
      else (.finished (.error notInitErr), s, [])
  | .probeWait h, s =>
      match env.isRunning h with
      | .ok true => (.extendWait h, s, [.isRunning h])
      | _ =>
          if env.hasSupabase then (.selectWait, s, [.isRunning h])
          else (.finished (.error (svcCreateErr projectId)), s, [.isRunning h])
  | .extendWait h, s =>
      match env.setTimeoutRes h with
      | .ok _ =>
          (.finished (.ok h), resetSandboxTimeout projectId s,
           [.setTimeoutCall h SANDBOX_TIMEOUT])
      | .error _ =>
          if env.hasSupabase then (.selectWait, s, [.setTimeoutCall h SANDBOX_TIMEOUT])
          else (.finished (.error (svcCreateErr projectId)), s,
                [.setTimeoutCall h SANDBOX_TIMEOUT])
  | .selectWait, s =>
      match env.selectRes projectId with
      | some (some sid) => (.resumeWait sid, s, [.storeSelect projectId])
      | _ => (.createWait, s, [.storeSelect projectId])
  | .resumeWait sid, s =>
      match env.resumeRes sid with
      | .ok h =>
          (.finished (.ok h),
           setSandboxTimeout projectId
             { s with activeSandboxes := mset projectId h s.activeSandboxes },
           [.resumeCall sid SANDBOX_TIMEOUT])
      | .error _ => (.createWait, s, [.resumeCall sid SANDBOX_TIMEOUT])
  | .createWait, s =>
      match env.createRes with
      | .ok h => (.updateWait h, s, [.createCall templateId SANDBOX_TIMEOUT])
      | .error _ =>
          (.finished (.error (svcCreateErr projectId)), s,
           [.createCall templateId SANDBOX_TIMEOUT])
  | .updateWait h, s =>
      (.finished (.ok h),
       setSandboxTimeout projectId
         { s with activeSandboxes := mset projectId h s.activeSandboxes },
       [.storeUpdateSandboxId projectId (some h) env.updateSandboxIdErr])
  | .finished r, s => (.finished r, s, [])

/-- Iterate `stepEnsure`, accumulating the trace. -/
def stepN (env : Env) (projectId templateId : String) :
    Nat → Phase × SBState × List Ev → Phase × SBState × List Ev
  | 0, c => c
  | n + 1, (ph, s, tr) =>
      match stepEnsure env projectId templateId ph s with
      | (ph1, s1, t1) => stepN env projectId templateId n (ph1, s1, tr ++ t1)

/-- Scheduler choice: which of the two concurrent calls advances. -/
inductive Which where
  | A
  | B
deriving DecidableEq, Repr

/-- Joint configuration of two in-flight calls for the same project sharing
the service state: each call's phase, the shared state, the merged trace. -/
structure TwoCalls where
  phA : Phase
  phB : Phase
  st : SBState
  tr : List Ev
deriving DecidableEq, Repr

/-- Advance the chosen call by one atomic step.  Each call carries its own
oracle (the remote side answers each call independently). -/
def stepOne (envA envB : Env) (projectId tA tB : String) (w : Which)
    (c : TwoCalls) : TwoCalls :=
  match w with
  | .A =>
      match stepEnsure envA projectId tA c.phA c.st with
      | (ph1, s1, t1) => { c with phA := ph1, st := s1, tr := c.tr ++ t1 }
  | .B =>
      match stepEnsure envB projectId tB c.phB c.st with
      | (ph1, s1, t1) => { c with phB := ph1, st := s1, tr := c.tr ++ t1 }

/-- Run a schedule (a list of choices) from a joint configuration. -/
def runSchedule (envA envB : Env) (projectId tA tB : String) :
    List Which → TwoCalls → TwoCalls
  | [], c => c
  | w :: ws, c =>
      runSchedule envA envB projectId tA tB ws (stepOne envA envB projectId tA tB w c)

/-! ## Trace observations -/

def Ev.isCreateEv : Ev → Bool
  | .createCall _ _ => true
  | _ => false

def Ev.isResumeEv : Ev → Bool
  | .resumeCall _ _ => true
  | _ => false

def Ev.isPauseEv : Ev → Bool
  | .pauseCall _ => true
  | _ => false

def Ev.isKillEv : Ev → Bool
  | .killCall _ => true
  | _ => false

def Ev.isRunCodeEv : Ev → Bool
  | .runCodeCall _ _ => true
  | _ => false

def Ev.isGetHostEv : Ev → Bool
  | .getHostCall _ _ => true
  | _ => false

def Ev.isAnalyticsEv : Ev → Bool
  | .analyticsTrack _ _ => true
  | _ => false

/-- Number of events of a given kind in a trace. -/
def countEv (f : Ev → Bool) : List Ev → Nat
  | [] => 0
  | e :: tr => (if f e then 1 else 0) + countEv f tr

/-- Number of `Sandbox.create` invocations recorded in a trace. -/
def createCount (tr : List Ev) : Nat := countEv Ev.isCreateEv tr

/-- Number of `sandbox.kill()` invocations recorded in a trace. -/
def killCount (tr : List Ev) : Nat := countEv Ev.isKillEv tr

/-- Number of `sandbox.pause()` invocations recorded in a trace. -/
def pauseCount (tr : List Ev) : Nat := countEv Ev.isPauseEv tr

/-- The event kinds that `getOrCreateProjectSandbox` may issue (session
bookkeeping only: probe, timeout extension, resume, create, store reads and
handle writes), with every provider-side duration equal to
`SANDBOX_TIMEOUT`. -/
def Ev.fromEnsure : Ev → Bool
  | .isRunning _ => true
  | .setTimeoutCall _ ms => ms == SANDBOX_TIMEOUT
  | .resumeCall _ ms => ms == SANDBOX_TIMEOUT
  | .createCall _ ms => ms == SANDBOX_TIMEOUT
  | .storeSelect _ => true
  | .storeUpdateSandboxId _ _ _ => true
  | _ => false

/-- Every provider-side duration carried by the event (timeout extension,
resume, create) equals `SANDBOX_TIMEOUT`. -/
def Ev.msOk : Ev → Bool
  | .setTimeoutCall _ ms => ms == SANDBOX_TIMEOUT
  | .resumeCall _ ms => ms == SANDBOX_TIMEOUT
  | .createCall _ ms => ms == SANDBOX_TIMEOUT
  | _ => true

/-- The event kinds that `pauseProject` may issue. -/
def Ev.fromPause : Ev → Bool
  | .pauseCall _ => true
  | .storeUpdateSandboxId _ _ _ => true
  | _ => false

/-! ## Concrete fixtures for witnesses and counterexamples -/

/-- An oracle on which every remote interaction succeeds. -/
def okEnv : Env where
  isRunning := fun _ => .ok true
  setTimeoutRes := fun _ => .ok ()
  resumeRes := fun _ => .ok "hResumed"
  createRes := .ok "hCreated"
  pauseRes := fun h => .ok h
  killRes := fun _ => .ok ()
  runCommandRes := .ok ()
  writeFileRes := .ok ()
  runCodeRes := .ok ⟨["2"], [], none, []⟩
  getHost := fun h q => h ++ "-" ++ toString q ++ ".e2b.dev"
  hasSupabase := true
  selectRes := fun _ => some none
  updateSandboxIdErr := false
  updatePausedErr := false
  updateClearErr := false
  updateActivityErr := false
  hasAnalytics := true

/-- Empty initialized service state. -/
def s0 : SBState := ⟨[], [], true⟩

/-- Initialized state with "p1" registered to handle "h0" and a pending
timer. -/
def s1reg : SBState := ⟨[("p1", "h0")], [("p1", SANDBOX_TIMEOUT)], true⟩

/-- A state on which `initialize()` has not completed. -/
def sUninit : SBState := ⟨[("p1", "h0")], [], false⟩

/-- A web-template fragment fixture. -/
def frWeb : FragmentSchema := ⟨"nextjs-developer", "code", "app.tsx", false, "", [], some 3000⟩

/-- An interpreter-template fragment fixture. -/
def frPy : FragmentSchema := ⟨"code-interpreter-v1", "print(1+1)", "main.py", false, "", [], none⟩

/-- Anonymous credentials fixture. -/
def authNone : FragmentProcessingAuth := ⟨none, none, none⟩

/-- Oracle on which every liveness probe reports not-running. -/
def probeFalseEnv : Env := { okEnv with isRunning := fun _ => .ok false }

/-- Oracle on which the probe reports not-running and the Supabase client
is absent, so the fall-through tier throws. -/
def probeFalseNoStoreEnv : Env :=
  { okEnv with isRunning := fun _ => .ok false, hasSupabase := false }

/-- Oracle on which a persisted handle "old" exists but its resume
rejects. -/
def resumeFailEnv : Env :=
  { okEnv with selectRes := fun _ => some (some "old"),
               resumeRes := fun _ => .error () }

/-- Oracle on which both persistence writes (handle and activity
timestamp) report errors. -/
def updFailEnv : Env :=
  { okEnv with updateSandboxIdErr := true, updateActivityErr := true }

/-- Oracle on which every provider-side kill rejects. -/
def killFailEnv : Env := { okEnv with killRes := fun _ => .error () }

/-- Oracle identical to `okEnv` except that `Sandbox.create` yields the
distinct handle "hB" (the remote side answers a second concurrent call
independently). -/
def createBEnv : Env := { okEnv with createRes := .ok "hB" }

/-- The interleaving in which both calls pass their registry check before
either registers its new sandbox: A start, B start, then A runs to
completion, then B runs to completion. -/
def raceSchedule : List Which := [.A, .B, .A, .A, .A, .B, .B, .B]

/-- A pause request body. -/
def reqPause : SandboxRequest := ⟨none, some .pause, none, none, none⟩

/-- A request body with neither pause/resume operation nor fragment. -/
def reqEmpty : SandboxRequest := ⟨none, none, none, none, none⟩

/-- An execute request body carrying the web fragment. -/
def reqWeb : SandboxRequest := ⟨some frWeb, none, none, none, none⟩

/-! # Helper lemmas -/

/-! ## Association-list maps -/

theorem mget_mdel_self (k : String) (m : List (String × α)) :
    mget k (mdel k m) = none := by
  induction m with
  | nil => rfl
  | cons a rest ih =>
      by_cases h1 : a.1 = k
      · simpa [mdel, h1] using ih
      · simpa [mdel, mget, h1] using ih

theorem mget_mdel_ne (h : k' ≠ k) (m : List (String × α)) :
    mget k' (mdel k m) = mget k' m := by
  induction m with
  | nil => rfl
  | cons a rest ih =>
      obtain ⟨a1, a2⟩ := a
      by_cases h1 : a1 = k
      · have h3 : ¬ a1 = k' := fun hc => h (hc ▸ h1)
        rw [show mdel k ((a1, a2) :: rest) = mdel k rest from by simp [mdel, h1]]
        rw [show mget k' ((a1, a2) :: rest) = mget k' rest from by simp [mget, h3]]
        exact ih
      · rw [show mdel k ((a1, a2) :: rest) = (a1, a2) :: mdel k rest from by
          simp [mdel, h1]]
        by_cases h2 : a1 = k'
        · simp [mget, h2]
        · simpa [mget, h2] using ih

theorem mget_mset_self (k : String) (v : α) (m : List (String × α)) :
    mget k (mset k v m) = some v := by
  simp [mset, mget]

theorem mget_mset_ne (h : k' ≠ k) (v : α) (m : List (String × α)) :
    mget k' (mset k v m) = mget k' m := by
  have h2 : k ≠ k' := fun hc => h hc.symm
  simp [mset, mget, h2, mget_mdel_ne h]

theorem keyCount_mdel (k p : String) (m : List (String × α)) :
    keyCount k (mdel p m) = if p = k then 0 else keyCount k m := by
  induction m with
  | nil => simp [mdel, keyCount]
  | cons a rest ih =>
      by_cases h1 : a.1 = p
      · by_cases h2 : p = k
        · simp_all [mdel, keyCount]
        · simp_all [mdel, keyCount, show a.1 ≠ k from by rw [h1]; exact h2]
      · by_cases h2 : p = k <;> simp_all [mdel, keyCount]

theorem keyCount_mset (k p : String) (v : α) (m : List (String × α)) :
    keyCount k (mset p v m) = if p = k then 1 else keyCount k m := by
  by_cases h2 : p = k <;> simp [mset, keyCount, keyCount_mdel, h2]

/-! ## State projections -/

theorem setSandboxTimeout_active (p : String) (s : SBState) :
    (setSandboxTimeout p s).activeSandboxes = s.activeSandboxes := rfl

theorem setSandboxTimeout_init (p : String) (s : SBState) :
    (setSandboxTimeout p s).isInitialized = s.isInitialized := rfl

theorem mget_setSandboxTimeout (p q : String) (s : SBState) :
    mget q (setSandboxTimeout p s).sandboxTimeouts =
      if p = q then some SANDBOX_TIMEOUT else mget q s.sandboxTimeouts := by
  by_cases h : p = q
  · subst h
    simp [setSandboxTimeout, clearSandboxTimeout, mget_mset_self]
  · simp [setSandboxTimeout, clearSandboxTimeout, h,
      mget_mset_ne (fun hc : q = p => h hc.symm),
      mget_mdel_ne (fun hc : q = p => h hc.symm)]

theorem keyCount_setSandboxTimeout (p q : String) (s : SBState) :
    keyCount q (setSandboxTimeout p s).sandboxTimeouts =
      if p = q then 1 else keyCount q s.sandboxTimeouts := by
  by_cases h : p = q <;>
    simp [setSandboxTimeout, clearSandboxTimeout, keyCount_mset, keyCount_mdel, h]

/-! ## Event counting -/

theorem countEv_append (f : Ev → Bool) (a b : List Ev) :
    countEv f (a ++ b) = countEv f a + countEv f b := by
  induction a with
  | nil => simp [countEv]
  | cons e rest ih => simp [countEv, ih]; omega

/-! ## Characterization of getOrCreateProjectSandbox -/

theorem createTier_ok_facts {env : Env} {p t : String} {pre : List Ev}
    {s : SBState} {hdl : String} {s' : SBState} {tr : List Ev}
    (h : createTier env p t pre s = (.ok hdl, s', tr)) :
    env.createRes = .ok hdl ∧
    s' = setSandboxTimeout p
      { s with activeSandboxes := mset p hdl s.activeSandboxes } := by
  unfold createTier at h
  split at h
  case h_1 x hv heq =>
    simp only [Prod.mk.injEq, Except.ok.injEq] at h
    obtain ⟨h1, h2, h3⟩ := h
    subst h1
    exact ⟨heq, h2.symm⟩
  case h_2 => simp_all

theorem createTier_error_facts {env : Env} {p t : String} {pre : List Ev}
    {s : SBState} {e : SvcError} {s' : SBState} {tr : List Ev}
    (h : createTier env p t pre s = (.error e, s', tr)) : s' = s := by
  unfold createTier at h
  split at h <;> simp_all

theorem resumeOrCreate_ok_facts {env : Env} {p t : String} {pre : List Ev}
    {s : SBState} {hdl : String} {s' : SBState} {tr : List Ev}
    (h : resumeOrCreate env p t pre s = (.ok hdl, s', tr)) :
    s' = setSandboxTimeout p
      { s with activeSandboxes := mset p hdl s.activeSandboxes } := by
  unfold resumeOrCreate at h
  split at h
  · split at h
    · split at h
      · simp only [Prod.mk.injEq, Except.ok.injEq] at h
        obtain ⟨h1, h2, h3⟩ := h
        subst h1
        exact h2.symm
      · exact (createTier_ok_facts h).2
    · exact (createTier_ok_facts h).2
  · simp_all

theorem resumeOrCreate_error_facts {env : Env} {p t : String} {pre : List Ev}
    {s : SBState} {e : SvcError} {s' : SBState} {tr : List Ev}
    (h : resumeOrCreate env p t pre s = (.error e, s', tr)) : s' = s := by
  unfold resumeOrCreate at h
  split at h
  · split at h
    · split at h
      · simp_all
      · exact createTier_error_facts h
    · exact createTier_error_facts h
  · simp_all

/-- A successful `getOrCreateProjectSandbox` requires the initialization
guard to have passed, registers the returned handle for the project, arms
the project's local timer with `SANDBOX_TIMEOUT`, and either leaves the
registry untouched (fast path: the handle was already registered) or
overwrites the project's binding with the returned handle. -/
theorem ensure_ok_facts {env : Env} {p t : String} {team tok : Option String}
    {s : SBState} {hdl : String} {s' : SBState} {tr : List Ev}
    (h : getOrCreateProjectSandbox env p t team tok s = (.ok hdl, s', tr)) :
    s.isInitialized = true ∧
    s'.isInitialized = true ∧
    mget p s'.activeSandboxes = some hdl ∧
    mget p s'.sandboxTimeouts = some SANDBOX_TIMEOUT ∧
    (s'.activeSandboxes = s.activeSandboxes ∨
     s'.activeSandboxes = mset p hdl s.activeSandboxes) := by
  unfold getOrCreateProjectSandbox at h
  split at h
  case isTrue hInit =>
    have base : ∀ s'' : SBState, s'' = setSandboxTimeout p
          { s with activeSandboxes := mset p hdl s.activeSandboxes } →
        s''.isInitialized = true ∧
        mget p s''.activeSandboxes = some hdl ∧
        mget p s''.sandboxTimeouts = some SANDBOX_TIMEOUT ∧
        (s''.activeSandboxes = s.activeSandboxes ∨
         s''.activeSandboxes = mset p hdl s.activeSandboxes) := by
      intro s'' he
      subst he
      refine ⟨hInit, ?_, ?_, .inr rfl⟩
      · rw [setSandboxTimeout_active]
        exact mget_mset_self p hdl s.activeSandboxes
      · rw [mget_setSandboxTimeout]
        simp
    split at h
    case h_1 x hreg hm =>
      split at h
      · split at h
        · simp only [Prod.mk.injEq, Except.ok.injEq] at h
          obtain ⟨h1, h2, h3⟩ := h
          subst h1
          subst h2
          refine ⟨hInit, hInit, ?_, ?_, .inl rfl⟩
          · show mget p s.activeSandboxes = some hreg
            exact hm
          · show mget p (setSandboxTimeout p s).sandboxTimeouts = some SANDBOX_TIMEOUT
            rw [mget_setSandboxTimeout]
            simp
        · exact ⟨hInit, base s' (resumeOrCreate_ok_facts h)⟩
      · exact ⟨hInit, base s' (resumeOrCreate_ok_facts h)⟩
      · exact ⟨hInit, base s' (resumeOrCreate_ok_facts h)⟩
    case h_2 =>
      exact ⟨hInit, base s' (resumeOrCreate_ok_facts h)⟩
  case isFalse => simp_all

/-- Every failing `getOrCreateProjectSandbox` leaves the service state
(registry and timers) exactly as it found it: in particular a stale
registry entry survives a throwing call. -/
theorem ensure_error_facts {env : Env} {p t : String} {team tok : Option String}
    {s : SBState} {e : SvcError} {s' : SBState} {tr : List Ev}
    (h : getOrCreateProjectSandbox env p t team tok s = (.error e, s', tr)) :
    s' = s := by
  unfold getOrCreateProjectSandbox at h
  split at h
  · split at h
    · split at h
      · split at h
        · simp_all
        · exact resumeOrCreate_error_facts h
      · exact resumeOrCreate_error_facts h
      · exact resumeOrCreate_error_facts h
    · exact resumeOrCreate_error_facts h
  · simp_all

theorem createTier_createCount (env : Env) (p t : String) (pre : List Ev)
    (s : SBState) :
    createCount (createTier env p t pre s).2.2 = createCount pre + 1 := by
  unfold createTier
  split <;> simp [createCount, countEv_append, countEv, Ev.isCreateEv]

theorem resumeOrCreate_createCount_le {pre : List Ev} (env : Env)
    (p t : String) (s : SBState) (h0 : createCount pre = 0) :
    createCount (resumeOrCreate env p t pre s).2.2 ≤ 1 := by
  unfold resumeOrCreate
  split
  · split
    · split
      · simp [createCount, countEv_append, countEv, Ev.isCreateEv] at h0 ⊢
        omega
      · rw [createTier_createCount]
        simp [createCount, countEv_append, countEv, Ev.isCreateEv] at h0 ⊢
        omega
    · rw [createTier_createCount]
      simp [createCount, countEv_append, countEv, Ev.isCreateEv] at h0 ⊢
      omega
  · simp [h0]

/-- A single `getOrCreateProjectSandbox` call invokes `Sandbox.create` at
most once. -/
theorem ensure_createCount (env : Env) (p t : String) (team tok : Option String)
    (s : SBState) :
    createCount (getOrCreateProjectSandbox env p t team tok s).2.2 ≤ 1 := by
  unfold getOrCreateProjectSandbox
  split
  · split
    · split
      · split
        · simp [createCount, countEv, Ev.isCreateEv]
        · exact resumeOrCreate_createCount_le env p t _
            (by simp [createCount, countEv, Ev.isCreateEv])
      · exact resumeOrCreate_createCount_le env p t _
          (by simp [createCount, countEv, Ev.isCreateEv])
      · exact resumeOrCreate_createCount_le env p t _
          (by simp [createCount, countEv, Ev.isCreateEv])
    · exact resumeOrCreate_createCount_le env p t _
        (by simp [createCount, countEv, Ev.isCreateEv])
  · simp [createCount, countEv]

theorem createTier_kinds {pre : List Ev} {env : Env} {p t : String}
    {s : SBState} (hpre : ∀ e ∈ pre, Ev.fromEnsure e = true) :
    ∀ e ∈ (createTier env p t pre s).2.2, Ev.fromEnsure e = true := by
  unfold createTier
  split <;> intro e he <;> simp only [List.mem_append, List.mem_cons,
    List.mem_singleton, List.not_mem_nil, or_false] at he
  · rcases he with he | he | he
    · exact hpre e he
    · subst he; rfl
    · subst he; rfl
  · rcases he with he | he
    · exact hpre e he
    · subst he; rfl

theorem resumeOrCreate_kinds {pre : List Ev} {env : Env} {p t : String}
    {s : SBState} (hpre : ∀ e ∈ pre, Ev.fromEnsure e = true) :
    ∀ e ∈ (resumeOrCreate env p t pre s).2.2, Ev.fromEnsure e = true := by
  unfold resumeOrCreate
  split
  · split
    · split
      · intro e he
        simp only [List.mem_append, List.mem_cons, List.mem_singleton,
          List.not_mem_nil, or_false] at he
        rcases he with he | he | he
        · exact hpre e he
        · subst he; rfl
        · subst he; rfl
      · refine createTier_kinds (fun e he => ?_)
        simp only [List.mem_append, List.mem_cons, List.mem_singleton,
          List.not_mem_nil, or_false] at he
        rcases he with he | he | he
        · exact hpre e he
        · subst he; rfl
        · subst he; rfl
    · refine createTier_kinds (fun e he => ?_)
      simp only [List.mem_append, List.mem_singleton] at he
      rcases he with he | he
      · exact hpre e he
      · subst he; rfl
  · exact hpre

/-- `getOrCreateProjectSandbox` only issues session-bookkeeping actions:
no pause, no kill, no code execution, no URL computation, no analytics. -/
theorem ensure_kinds (env : Env) (p t : String) (team tok : Option String)
    (s : SBState) :
    ∀ e ∈ (getOrCreateProjectSandbox env p t team tok s).2.2,
      Ev.fromEnsure e = true := by
  unfold getOrCreateProjectSandbox
  split
  · split
    · split
      · split
        · intro e he
          simp only [List.mem_cons, List.mem_singleton, List.not_mem_nil,
            or_false] at he
          rcases he with he | he <;> (subst he; rfl)
        · refine resumeOrCreate_kinds (fun e he => ?_)
          simp only [List.mem_cons, List.mem_singleton, List.not_mem_nil,
            or_false] at he
          rcases he with he | he <;> (subst he; rfl)
      · refine resumeOrCreate_kinds (fun e he => ?_)
        simp only [List.mem_singleton] at he
        subst he; rfl
      · refine resumeOrCreate_kinds (fun e he => ?_)
        simp only [List.mem_singleton] at he
        subst he; rfl
    · refine resumeOrCreate_kinds (fun e he => ?_)
      simp at he
  · intro e he
    simp at he

/-- A successful `resumeOrCreate` obtained its handle either from a
successful `Sandbox.resume` of the persisted handle, or from a successful
`Sandbox.create`. -/
theorem resumeOrCreate_ok_provenance {env : Env} {p t : String} {pre : List Ev}
    {s : SBState} {hdl : String} {s' : SBState} {tr : List Ev}
    (h : resumeOrCreate env p t pre s = (.ok hdl, s', tr)) :
    (∃ sid, env.selectRes p = some (some sid) ∧ env.resumeRes sid = .ok hdl) ∨
    env.createRes = .ok hdl := by
  unfold resumeOrCreate at h
  split at h
  · split at h
    case h_1 x sid heq =>
      split at h
      case h_1 y hv heq2 =>
        simp only [Prod.mk.injEq, Except.ok.injEq] at h
        obtain ⟨h1, h2, h3⟩ := h
        subst h1
        exact .inl ⟨sid, heq, heq2⟩
      case h_2 => exact .inr (createTier_ok_facts h).1
    case h_2 => exact .inr (createTier_ok_facts h).1
  · simp_all

/-! ## Forward path equations -/

/-- Fast path: registered, probe resolves true, extension resolves. -/
theorem ensure_fastpath_eq {env : Env} {p : String} (t : String)
    (team tok : Option String) {s : SBState} {hdl : String}
    (hinit : s.isInitialized = true)
    (hreg : mget p s.activeSandboxes = some hdl)
    (hrun : env.isRunning hdl = .ok true)
    (hext : env.setTimeoutRes hdl = .ok ()) :
    getOrCreateProjectSandbox env p t team tok s =
      (.ok hdl, resetSandboxTimeout p s,
       [.isRunning hdl, .setTimeoutCall hdl SANDBOX_TIMEOUT]) := by
  simp [getOrCreateProjectSandbox, hinit, hreg, hrun, hext]

/-- A registered session whose probe reports not-running or rejects: the
call falls through to the resume/create tiers, keeping the stale registry
entry in place for now. -/
theorem ensure_probefail_eq {env : Env} {p : String} (t : String)
    (team tok : Option String) {s : SBState} {hstale : String}
    (hinit : s.isInitialized = true)
    (hreg : mget p s.activeSandboxes = some hstale)
    (hprobe : env.isRunning hstale = .ok false ∨ env.isRunning hstale = .error ()) :
    getOrCreateProjectSandbox env p t team tok s =
      resumeOrCreate env p t [.isRunning hstale] s := by
  rcases hprobe with hp | hp <;>
    simp [getOrCreateProjectSandbox, hinit, hreg, hp]

/-- Registry miss with a persisted handle whose resume rejects: the call
continues into the create tier with the probe-free prefix trace. -/
theorem ensure_resumefail_eq {env : Env} {p : String} (t : String)
    (team tok : Option String) {s : SBState} {sid : String}
    (hinit : s.isInitialized = true)
    (hreg : mget p s.activeSandboxes = none)
    (hsb : env.hasSupabase = true)
    (hsel : env.selectRes p = some (some sid))
    (hres : env.resumeRes sid = .error ()) :
    getOrCreateProjectSandbox env p t team tok s =
      createTier env p t [.storeSelect p, .resumeCall sid SANDBOX_TIMEOUT] s := by
  simp [getOrCreateProjectSandbox, resumeOrCreate, hinit, hreg, hsb, hsel, hres]

/-- Registry miss with no persisted handle: straight to the create tier. -/
theorem ensure_nohandle_eq {env : Env} {p : String} (t : String)
    (team tok : Option String) {s : SBState}
    (hinit : s.isInitialized = true)
    (hreg : mget p s.activeSandboxes = none)
    (hsb : env.hasSupabase = true)
    (hsel : env.selectRes p = some none) :
    getOrCreateProjectSandbox env p t team tok s =
      createTier env p t [.storeSelect p] s := by
  simp [getOrCreateProjectSandbox, resumeOrCreate, hinit, hreg, hsb, hsel]

/-- Create tier with a resolving `Sandbox.create`. -/
theorem createTier_ok_eq {env : Env} (p t : String) (pre : List Ev)
    (s : SBState) {hdl : String} (hok : env.createRes = .ok hdl) :
    createTier env p t pre s =
      (.ok hdl,
       setSandboxTimeout p
         { s with activeSandboxes := mset p hdl s.activeSandboxes },
       pre ++ [.createCall t SANDBOX_TIMEOUT,
               .storeUpdateSandboxId p (some hdl) env.updateSandboxIdErr]) := by
  simp [createTier, hok]

/-- Create tier with a rejecting `Sandbox.create`. -/
theorem createTier_error_eq {env : Env} (p t : String) (pre : List Ev)
    (s : SBState) (hko : env.createRes = .error ()) :
    createTier env p t pre s =
      (.error (svcCreateErr p), s, pre ++ [.createCall t SANDBOX_TIMEOUT]) := by
  simp [createTier, hko]

/-- Successful pause of a registered project: provider pause, best-effort
handle persistence, removal of the registry entry and of the timer. -/
theorem pause_success_eq {env : Env} {p : String} {s : SBState}
    {hdl newId : String}
    (hinit : s.isInitialized = true)
    (hreg : mget p s.activeSandboxes = some hdl)
    (hok : env.pauseRes hdl = .ok newId) :
    pauseProject env p s =
      (.ok (),
       clearSandboxTimeout p
         { s with activeSandboxes := mdel p s.activeSandboxes },
       .pauseCall hdl ::
         (if env.hasSupabase then
           [.storeUpdateSandboxId p (some newId) env.updatePausedErr]
         else [])) := by
  simp [pauseProject, hinit, hreg, hok]

/-- `pauseProject` only issues pause and handle-persistence actions; in
particular the timeout scheduler path never calls `kill`. -/
theorem pause_kinds (env : Env) (p : String) (s : SBState) :
    ∀ e ∈ (pauseProject env p s).2.2, Ev.fromPause e = true := by
  unfold pauseProject
  split
  · split
    · intro e he; simp at he
    · split
      · intro e he
        simp only [List.mem_singleton] at he
        subst he; rfl
      · intro e he
        by_cases hs : env.hasSupabase <;> simp [hs] at he
        · rcases he with he | he <;> (subst he; rfl)
        · subst he; rfl
  · intro e he; simp at he

/-! ## Fragment-phase lemmas -/

theorem mem_append_cases {P : Ev → Prop} {a b : List Ev}
    (ha : ∀ e ∈ a, P e) (hb : ∀ e ∈ b, P e) : ∀ e ∈ a ++ b, P e := by
  intro e he
  rcases List.mem_append.mp he with h | h
  · exact ha e h
  · exact hb e h

theorem mem_single_case {P : Ev → Prop} {x : Ev} (hx : P x) : ∀ e ∈ [x], P e := by
  intro e he
  simp only [List.mem_singleton] at he
  subst he
  exact hx

/-- Session-bookkeeping events are none of the deployment-side kinds. -/
theorem fromEnsure_excludes (e : Ev) (h : Ev.fromEnsure e = true) :
    e.isGetHostEv = false ∧ e.isAnalyticsEv = false ∧ e.isRunCodeEv = false ∧
    e.isPauseEv = false ∧ e.isKillEv = false := by
  cases e <;> simp_all [Ev.fromEnsure, Ev.isGetHostEv, Ev.isAnalyticsEv,
    Ev.isRunCodeEv, Ev.isPauseEv, Ev.isKillEv]

theorem activityEvs_mem (env : Env) (p : String) (hac : Bool) :
    ∀ e ∈ activityEvs env p hac,
      e = Ev.storeUpdateActivity p env.updateActivityErr := by
  unfold activityEvs
  split
  · intro e he; simpa using he
  · intro e he; simp at he

/-- Interpreter template: the deployment phases issue no URL computation
and no analytics emission. -/
theorem countEv_activity_getHost (env : Env) (p : String) (hac : Bool) :
    countEv Ev.isGetHostEv (activityEvs env p hac) = 0 := by
  unfold activityEvs
  split <;> simp [countEv, Ev.isGetHostEv]

theorem countEv_activity_analytics (env : Env) (p : String) (hac : Bool) :
    countEv Ev.isAnalyticsEv (activityEvs env p hac) = 0 := by
  unfold activityEvs
  split <;> simp [countEv, Ev.isAnalyticsEv]

theorem countEv_activity_runCode (env : Env) (p : String) (hac : Bool) :
    countEv Ev.isRunCodeEv (activityEvs env p hac) = 0 := by
  unfold activityEvs
  split <;> simp [countEv, Ev.isRunCodeEv]

theorem countEv_zero_of_all {f : Ev → Bool} {tr : List Ev}
    (h : ∀ e ∈ tr, f e = false) : countEv f tr = 0 := by
  induction tr with
  | nil => rfl
  | cons e rest ih =>
      simp [countEv, h e (by simp),
        ih (fun x hx => h x (by simp [hx]))]

/-- The trace of `getOrCreateProjectSandbox` contains no URL computation,
no analytics emission, and no code execution. -/
theorem ensure_no_exec_events (env : Env) (p t : String)
    (team tok : Option String) (s : SBState) :
    countEv Ev.isGetHostEv (getOrCreateProjectSandbox env p t team tok s).2.2 = 0 ∧
    countEv Ev.isAnalyticsEv (getOrCreateProjectSandbox env p t team tok s).2.2 = 0 ∧
    countEv Ev.isRunCodeEv (getOrCreateProjectSandbox env p t team tok s).2.2 = 0 := by
  refine ⟨countEv_zero_of_all (fun e he => ?_), countEv_zero_of_all (fun e he => ?_),
    countEv_zero_of_all (fun e he => ?_)⟩ <;>
  · have hk := ensure_kinds env p t team tok s e he
    have := fromEnsure_excludes e hk
    tauto

/-- Interpreter template: the deployment phases add no URL computation and
no analytics emission to the trace. -/
theorem deployPhase_interp_counts {env : Env} {p : String}
    {fragment : FragmentSchema} {auth : FragmentProcessingAuth}
    {sbx : String} {pre : List Ev} {s : SBState}
    (htpl : fragment.template = "code-interpreter-v1") :
    countEv Ev.isGetHostEv (deployPhase env p fragment auth sbx pre s).2.2 =
      countEv Ev.isGetHostEv pre ∧
    countEv Ev.isAnalyticsEv (deployPhase env p fragment auth sbx pre s).2.2 =
      countEv Ev.isAnalyticsEv pre := by
  cases hcmd : env.runCommandRes <;> cases hwf : env.writeFileRes <;>
    cases hrc : env.runCodeRes <;>
      by_cases hdeps : fragment.has_additional_dependencies <;>
        simp [deployPhase, writePhase, execPhase, htpl, hcmd, hwf, hrc, hdeps,
          countEv_append, countEv, Ev.isGetHostEv, Ev.isAnalyticsEv,
          countEv_activity_getHost, countEv_activity_analytics]

/-- Interpreter template: a successful deployment returns an
`InterpreterResult` built from the provider's `runCode` outcome. -/
theorem deployPhase_interp_ok {env : Env} {p : String}
    {fragment : FragmentSchema} {auth : FragmentProcessingAuth}
    {sbx : String} {pre : List Ev} {s : SBState} {r : ExecutionResult}
    {s' : SBState} {tr : List Ev}
    (htpl : fragment.template = "code-interpreter-v1")
    (h : deployPhase env p fragment auth sbx pre s = (.ok r, s', tr)) :
    ∃ rc, env.runCodeRes = .ok rc ∧
      r = .interpreter sbx fragment.template rc.stdout rc.stderr
            rc.runtimeErr rc.results := by
  cases hcmd : env.runCommandRes <;> cases hwf : env.writeFileRes <;>
    cases hrc : env.runCodeRes <;>
      by_cases hdeps : fragment.has_additional_dependencies <;>
        simp_all [deployPhase, writePhase, execPhase]

/-- Non-interpreter template: the deployment phases never run the code. -/
theorem deployPhase_web_no_runcode {env : Env} {p : String}
    {fragment : FragmentSchema} {auth : FragmentProcessingAuth}
    {sbx : String} {pre : List Ev} {s : SBState}
    (htpl : ¬ fragment.template = "code-interpreter-v1") :
    countEv Ev.isRunCodeEv (deployPhase env p fragment auth sbx pre s).2.2 =
      countEv Ev.isRunCodeEv pre := by
  cases hcmd : env.runCommandRes <;> cases hwf : env.writeFileRes <;>
    by_cases ha : env.hasAnalytics <;>
      by_cases hdeps : fragment.has_additional_dependencies <;>
        simp [deployPhase, writePhase, execPhase, htpl, hcmd, hwf, ha, hdeps,
          countEv_append, countEv, Ev.isRunCodeEv, countEv_activity_runCode]

/-- Non-interpreter template: a successful deployment returns a `WebResult`
whose URL is derived from the session host and the (defaulted) port, and,
when the analytics service exists, the tracking event carrying that URL and
the project id is in the trace. -/
theorem deployPhase_web_ok {env : Env} {p : String}
    {fragment : FragmentSchema} {auth : FragmentProcessingAuth}
    {sbx : String} {pre : List Ev} {s : SBState} {r : ExecutionResult}
    {s' : SBState} {tr : List Ev}
    (htpl : ¬ fragment.template = "code-interpreter-v1")
    (h : deployPhase env p fragment auth sbx pre s = (.ok r, s', tr)) :
    r = .web sbx fragment.template
          ("https://" ++ env.getHost sbx (fragmentPort fragment)) ∧
    (env.hasAnalytics = true →
      .analyticsTrack ("https://" ++ env.getHost sbx (fragmentPort fragment)) p
        ∈ tr) := by
  cases hcmd : env.runCommandRes <;> cases hwf : env.writeFileRes <;>
    by_cases ha : env.hasAnalytics <;>
      by_cases hdeps : fragment.has_additional_dependencies <;>
        simp_all [deployPhase, writePhase, execPhase]
  all_goals obtain ⟨h1, h2, h3⟩ := h
  all_goals subst h3
  all_goals simp

/-- A failing deployment never emits analytics. -/
theorem deployPhase_error_no_analytics {env : Env} {p : String}
    {fragment : FragmentSchema} {auth : FragmentProcessingAuth}
    {sbx : String} {pre : List Ev} {s : SBState} {e : SvcError}
    {s' : SBState} {tr : List Ev}
    (hpre : countEv Ev.isAnalyticsEv pre = 0)
    (h : deployPhase env p fragment auth sbx pre s = (.error e, s', tr)) :
    countEv Ev.isAnalyticsEv tr = 0 := by
  cases hcmd : env.runCommandRes <;> cases hwf : env.writeFileRes <;>
    cases hrc : env.runCodeRes <;>
      by_cases htpl : fragment.template = "code-interpreter-v1" <;>
        by_cases hdeps : fragment.has_additional_dependencies <;>
          simp_all [deployPhase, writePhase, execPhase, countEv_append, countEv,
            Ev.isAnalyticsEv, countEv_activity_analytics]
  all_goals obtain ⟨h1, h2, h3⟩ := h
  all_goals subst h3
  all_goals simp [countEv_append, countEv, Ev.isAnalyticsEv,
    countEv_activity_analytics, hpre]

theorem msOk_of_fromEnsure (e : Ev) (h : Ev.fromEnsure e = true) :
    Ev.msOk e = true := by
  cases e <;> simp_all [Ev.fromEnsure, Ev.msOk]

theorem fromPause_not_kill (e : Ev) (h : Ev.fromPause e = true) :
    e.isKillEv = false := by
  cases e <;> simp_all [Ev.fromPause, Ev.isKillEv]

theorem onSandboxTimeoutFire_eq (env : Env) (p : String) (s : SBState) :
    onSandboxTimeoutFire env p s =
      ((pauseProject env p s).2.1, (pauseProject env p s).2.2) := by
  rcases hp : pauseProject env p s with ⟨r, s1, t1⟩
  simp [onSandboxTimeoutFire, hp]

/-! ## Kill lemmas -/

theorem mget_mdel_some {q a : String} {m : List (String × α)} {v : α}
    (h : mget q (mdel a m) = some v) : mget q m = some v := by
  by_cases hq : q = a
  · subst hq
    rw [mget_mdel_self] at h
    cases h
  · rwa [mget_mdel_ne hq] at h

theorem mget_of_mem_nodup {m : List (String × String)} {pr : String × String}
    (hnd : (m.map Prod.fst).Nodup) (hm : pr ∈ m) : mget pr.1 m = some pr.2 := by
  induction m with
  | nil => cases hm
  | cons a rest ih =>
      rcases List.mem_cons.mp hm with he | he
      · subst he
        simp [mget]
      · have hne : a.1 ≠ pr.1 := by
          intro hc
          have h1 : a.1 ∈ rest.map Prod.fst := hc ▸ List.mem_map_of_mem Prod.fst he
          exact (List.nodup_cons.mp hnd).1 h1
        rw [show mget pr.1 (a :: rest) = mget pr.1 rest from by simp [mget, hne]]
        exact ih (List.nodup_cons.mp hnd).2 he

theorem mget_isSome_of_mem_keys {m : List (String × String)} {p : String}
    (h : p ∈ m.map Prod.fst) : (mget p m).isSome = true := by
  induction m with
  | nil => simp at h
  | cons a rest ih =>
      by_cases he : a.1 = p
      · simp [mget, he]
      · rw [show mget p (a :: rest) = mget p rest from by simp [mget, he]]
        apply ih
        simp only [List.map_cons, List.mem_cons] at h
        rcases h with h | h
        · exact absurd h.symm he
        · exact h

theorem killProject_init (env : Env) (p : String) (s : SBState) :
    (killProject env p s).2.1.isInitialized = s.isInitialized := by
  unfold killProject
  split
  · split
    · rfl
    · split <;> rfl
  · rfl

theorem killProject_active_shape (env : Env) (p : String) (s : SBState) :
    (killProject env p s).2.1.activeSandboxes = s.activeSandboxes ∨
    (killProject env p s).2.1.activeSandboxes = mdel p s.activeSandboxes := by
  unfold killProject
  split
  · split
    · exact .inl rfl
    · split
      · exact .inr rfl
      · exact .inl rfl
  · exact .inl rfl

theorem killProject_other {q p : String} (env : Env) (s : SBState)
    (hq : q ≠ p) :
    mget q (killProject env p s).2.1.activeSandboxes =
      mget q s.activeSandboxes := by
  rcases killProject_active_shape env p s with h | h <;> rw [h]
  exact mget_mdel_ne hq _

theorem killProject_never_throws (env : Env) (p : String) (s : SBState)
    (hinit : s.isInitialized = true) : (killProject env p s).1 = .ok () := by
  unfold killProject
  simp [hinit]

theorem killProject_self_ok {env : Env} {p : String} {s : SBState}
    {hdl : String} (hinit : s.isInitialized = true)
    (hreg : mget p s.activeSandboxes = some hdl)
    (hk : env.killRes hdl = .ok ()) :
    mget p (killProject env p s).2.1.activeSandboxes = none ∧
    mget p (killProject env p s).2.1.sandboxTimeouts = none := by
  simp [killProject, hinit, hreg, hk, clearSandboxTimeout, mget_mdel_self]

theorem killProject_fail_state {env : Env} {p : String} {s : SBState}
    {hdl : String} (hinit : s.isInitialized = true)
    (hreg : mget p s.activeSandboxes = some hdl)
    (hk : env.killRes hdl = .error ()) :
    (killProject env p s).2.1 = s := by
  simp [killProject, hinit, hreg, hk]

theorem killProject_trace_mem {env : Env} {p : String} {s : SBState}
    {hdl : String} (hinit : s.isInitialized = true)
    (hreg : mget p s.activeSandboxes = some hdl) :
    Ev.killCall hdl ∈ (killProject env p s).2.2 ∧
    (env.hasSupabase = true →
      Ev.storeUpdateSandboxId p none env.updateClearErr ∈
        (killProject env p s).2.2) := by
  cases hk : env.killRes hdl <;>
    by_cases hs : env.hasSupabase <;>
      simp [killProject, hinit, hreg, hk, hs]

theorem killProject_killCount (env : Env) (p : String) (s : SBState)
    (hinit : s.isInitialized = true) :
    killCount (killProject env p s).2.2 =
      if (mget p s.activeSandboxes).isSome then 1 else 0 := by
  unfold killProject
  rcases hreg : mget p s.activeSandboxes with _ | hdl
  · by_cases hs : env.hasSupabase <;>
      simp [hinit, hreg, hs, killCount, countEv, Ev.isKillEv]
  · cases hk : env.killRes hdl <;> by_cases hs : env.hasSupabase <;>
      simp [hinit, hreg, hk, hs, killCount, countEv, countEv_append, Ev.isKillEv]

theorem killAllLoop_mono (env : Env) : ∀ (ks : List String) (s : SBState)
    (q : String) (v : String),
    mget q (killAllLoop env ks s).1.activeSandboxes = some v →
    mget q s.activeSandboxes = some v := by
  intro ks
  induction ks with
  | nil => intro s q v h; exact h
  | cons a rest ih =>
      intro s q v h
      rw [show killAllLoop env (a :: rest) s =
          ((killAllLoop env rest (killProject env a s).2.1).1,
           (killProject env a s).2.2 ++
             (killAllLoop env rest (killProject env a s).2.1).2) from by
        rw [killAllLoop]] at h
      have h2 := ih (killProject env a s).2.1 q v h
      rcases killProject_active_shape env a s with hs | hs
      · rwa [hs] at h2
      · rw [hs] at h2
        exact mget_mdel_some h2

theorem killAllLoop_init (env : Env) : ∀ (ks : List String) (s : SBState),
    (killAllLoop env ks s).1.isInitialized = s.isInitialized := by
  intro ks
  induction ks with
  | nil => intro s; rfl
  | cons a rest ih =>
      intro s
      rw [show killAllLoop env (a :: rest) s =
          ((killAllLoop env rest (killProject env a s).2.1).1,
           (killProject env a s).2.2 ++
             (killAllLoop env rest (killProject env a s).2.1).2) from by
        rw [killAllLoop]]
      rw [ih, killProject_init]

/-- Main induction for the batch kill: every listed, registered project has
its provider kill attempted (trace membership), its persisted handle
cleared when the store exists, and its registry entry removed when its own
kill resolved; the number of kill calls equals the number of listed
projects that are registered. -/
theorem killAllLoop_facts (env : Env) : ∀ (ks : List String) (s : SBState),
    s.isInitialized = true → ks.Nodup →
    (∀ p ∈ ks, ∀ hdl, mget p s.activeSandboxes = some hdl →
       (Ev.killCall hdl ∈ (killAllLoop env ks s).2) ∧
       (env.hasSupabase = true →
         Ev.storeUpdateSandboxId p none env.updateClearErr ∈
           (killAllLoop env ks s).2) ∧
       (env.killRes hdl = .ok () →
         mget p (killAllLoop env ks s).1.activeSandboxes = none)) ∧
    killCount (killAllLoop env ks s).2 =
      (ks.filter (fun p => (mget p s.activeSandboxes).isSome)).length := by
  intro ks
  induction ks with
  | nil =>
      intro s hinit hnd
      exact ⟨fun p hp => absurd hp (List.not_mem_nil p), rfl⟩
  | cons a rest ih =>
      intro s hinit hnd
      have hrw : killAllLoop env (a :: rest) s =
          ((killAllLoop env rest (killProject env a s).2.1).1,
           (killProject env a s).2.2 ++
             (killAllLoop env rest (killProject env a s).2.1).2) := by
        rw [killAllLoop]
      have hinit1 : (killProject env a s).2.1.isInitialized = true := by
        rw [killProject_init]; exact hinit
      have hanotin : a ∉ rest := (List.nodup_cons.mp hnd).1
      have hndrest : rest.Nodup := (List.nodup_cons.mp hnd).2
      have hrest := ih (killProject env a s).2.1 hinit1 hndrest
      have hsame : ∀ p ∈ rest, mget p (killProject env a s).2.1.activeSandboxes =
          mget p s.activeSandboxes := fun p hp =>
        killProject_other env s (fun hc => hanotin (hc ▸ hp))
      constructor
      · intro p hp hdl hreg
        rcases List.mem_cons.mp hp with he | he
        · subst he
          have hm := @killProject_trace_mem env p s hdl hinit hreg
          rw [hrw]
          refine ⟨List.mem_append.mpr (.inl hm.1),
            fun hs => List.mem_append.mpr (.inl (hm.2 hs)), ?_⟩
          intro hk
          have hnone := (killProject_self_ok hinit hreg hk).1
          rcases hfin : mget p (killAllLoop env rest
              (killProject env p s).2.1).1.activeSandboxes with _ | v
          · rfl
          · have hup := killAllLoop_mono env rest (killProject env p s).2.1 p v hfin
            rw [hnone] at hup
            cases hup
        · have hreg1 : mget p (killProject env a s).2.1.activeSandboxes = some hdl := by
            rw [hsame p he]; exact hreg
          have hr := hrest.1 p he hdl hreg1
          rw [hrw]
          exact ⟨List.mem_append.mpr (.inr hr.1),
            fun hs => List.mem_append.mpr (.inr (hr.2.1 hs)), hr.2.2⟩
      · rw [hrw]
        have hcnt : killCount ((killProject env a s).2.2 ++
            (killAllLoop env rest (killProject env a s).2.1).2) =
            killCount (killProject env a s).2.2 +
            killCount (killAllLoop env rest (killProject env a s).2.1).2 := by
          simp [killCount, countEv_append]
        rw [hcnt, killProject_killCount env a s hinit, hrest.2]
        have hfil : rest.filter
            (fun p => (mget p (killProject env a s).2.1.activeSandboxes).isSome) =
            rest.filter (fun p => (mget p s.activeSandboxes).isSome) := by
          apply List.filter_congr
          intro x hx
          rw [hsame x hx]
        rw [hfil]
        rcases hma : (mget a s.activeSandboxes).isSome with _ | _
        · simp [List.filter_cons, hma]
        · simp [List.filter_cons, hma]
          omega

/-! ## Registry shape and small-step fidelity -/

/-- One call changes the project's registry binding at most by overwriting
it: the final registry is the initial one, or the initial one with this
project rebound. -/
theorem outcome_active_shape (env : Env) (p t : String)
    (team tok : Option String) (s : SBState) :
    (getOrCreateProjectSandbox env p t team tok s).2.1.activeSandboxes =
      s.activeSandboxes ∨
    ∃ hdl, (getOrCreateProjectSandbox env p t team tok s).2.1.activeSandboxes =
      mset p hdl s.activeSandboxes := by
  rcases hg : getOrCreateProjectSandbox env p t team tok s with ⟨r, s', tr⟩
  cases r with
  | error e =>
      have hs := ensure_error_facts hg
      simp [hs]
  | ok hdl =>
      rcases (ensure_ok_facts hg).2.2.2.2 with h | h
      · exact .inl h
      · exact .inr ⟨hdl, h⟩

/-- The small-step machine is faithful: running one call alone from
`Phase.start` for (at most) 7 atomic steps produces exactly the outcome of
the monolithic `getOrCreateProjectSandbox`. -/
theorem stepN_complete (env : Env) (p t : String) (team tok : Option String)
    (s : SBState) :
    stepN env p t 7 (.start, s, []) =
      (.finished (getOrCreateProjectSandbox env p t team tok s).1,
       (getOrCreateProjectSandbox env p t team tok s).2.1,
       (getOrCreateProjectSandbox env p t team tok s).2.2) := by
  by_cases hinit : s.isInitialized
  · rcases hreg : mget p s.activeSandboxes with _ | hdl
    · by_cases hsb : env.hasSupabase
      · rcases hsel : env.selectRes p with _ | osid
        · cases hcr : env.createRes <;>
            simp [stepN, stepEnsure, getOrCreateProjectSandbox, resumeOrCreate,
              createTier, hinit, hreg, hsb, hsel, hcr]
        · rcases osid with _ | sid
          · cases hcr : env.createRes <;>
              simp [stepN, stepEnsure, getOrCreateProjectSandbox, resumeOrCreate,
                createTier, hinit, hreg, hsb, hsel, hcr]
          · rcases hres : env.resumeRes sid with _ | h2
            · cases hcr : env.createRes <;>
                simp [stepN, stepEnsure, getOrCreateProjectSandbox, resumeOrCreate,
                  createTier, hinit, hreg, hsb, hsel, hres, hcr]
            · simp [stepN, stepEnsure, getOrCreateProjectSandbox, resumeOrCreate,
                createTier, hinit, hreg, hsb, hsel, hres]
      · simp [stepN, stepEnsure, getOrCreateProjectSandbox, resumeOrCreate,
          hinit, hreg, hsb]
    · rcases hrun : env.isRunning hdl with _ | b
      · by_cases hsb : env.hasSupabase
        · rcases hsel : env.selectRes p with _ | osid
          · cases hcr : env.createRes <;>
              simp [stepN, stepEnsure, getOrCreateProjectSandbox, resumeOrCreate,
                createTier, hinit, hreg, hsb, hsel, hcr, hrun]
          · rcases osid with _ | sid
            · cases hcr : env.createRes <;>
                simp [stepN, stepEnsure, getOrCreateProjectSandbox, resumeOrCreate,
                  createTier, hinit, hreg, hsb, hsel, hcr, hrun]
            · rcases hres : env.resumeRes sid with _ | h2
              · cases hcr : env.createRes <;>
                  simp [stepN, stepEnsure, getOrCreateProjectSandbox,
                    resumeOrCreate, createTier, hinit, hreg, hsb, hsel, hres,
                    hcr, hrun]
              · simp [stepN, stepEnsure, getOrCreateProjectSandbox,
                  resumeOrCreate, createTier, hinit, hreg, hsb, hsel, hres, hrun]
        · simp [stepN, stepEnsure, getOrCreateProjectSandbox, resumeOrCreate,
            hinit, hreg, hsb, hrun]
      · cases b
        · by_cases hsb : env.hasSupabase
          · rcases hsel : env.selectRes p with _ | osid
            · cases hcr : env.createRes <;>
                simp [stepN, stepEnsure, getOrCreateProjectSandbox,
                  resumeOrCreate, createTier, hinit, hreg, hsb, hsel, hcr, hrun]
            · rcases osid with _ | sid
              · cases hcr : env.createRes <;>
                  simp [stepN, stepEnsure, getOrCreateProjectSandbox,
                    resumeOrCreate, createTier, hinit, hreg, hsb, hsel, hcr, hrun]
              · rcases hres : env.resumeRes sid with _ | h2
                · cases hcr : env.createRes <;>
                    simp [stepN, stepEnsure, getOrCreateProjectSandbox,
                      resumeOrCreate, createTier, hinit, hreg, hsb, hsel, hres,
                      hcr, hrun]
                · simp [stepN, stepEnsure, getOrCreateProjectSandbox,
                    resumeOrCreate, createTier, hinit, hreg, hsb, hsel, hres, hrun]
          · simp [stepN, stepEnsure, getOrCreateProjectSandbox, resumeOrCreate,
              hinit, hreg, hsb, hrun]
        · rcases hext : env.setTimeoutRes hdl with _ | u
          · by_cases hsb : env.hasSupabase
            · rcases hsel : env.selectRes p with _ | osid
              · cases hcr : env.createRes <;>
                  simp [stepN, stepEnsure, getOrCreateProjectSandbox,
                    resumeOrCreate, createTier, hinit, hreg, hsb, hsel, hcr,
                    hrun, hext]
              · rcases osid with _ | sid
                · cases hcr : env.createRes <;>
                    simp [stepN, stepEnsure, getOrCreateProjectSandbox,
                      resumeOrCreate, createTier, hinit, hreg, hsb, hsel, hcr,
                      hrun, hext]
                · rcases hres : env.resumeRes sid with _ | h2
                  · cases hcr : env.createRes <;>
                      simp [stepN, stepEnsure, getOrCreateProjectSandbox,
                        resumeOrCreate, createTier, hinit, hreg, hsb, hsel,
                        hres, hcr, hrun, hext]
                  · simp [stepN, stepEnsure, getOrCreateProjectSandbox,
                      resumeOrCreate, createTier, hinit, hreg, hsb, hsel, hres,
                      hrun, hext]
            · simp [stepN, stepEnsure, getOrCreateProjectSandbox,
                resumeOrCreate, hinit, hreg, hsb, hrun, hext]
          · simp [stepN, stepEnsure, getOrCreateProjectSandbox, hinit, hreg,
              hrun, hext]
  · simp [stepN, stepEnsure, getOrCreateProjectSandbox, hinit]

/-! # Claims -/

/-- C1: for a single-threaded caller, two sequential
`getOrCreateProjectSandbox` calls for the same project with the same
template and credentials, issued within the timeout window (modelled as:
the second call's liveness probe and provider-side timeout extension on the
registered handle both resolve), return sessions bound to the identical
remote handle, and the provider's `create` is invoked at most once across
both calls: the second call extends the provider-side timeout
(`setTimeoutCall` in its trace), rearms the local timer
(`resetSandboxTimeout`), and returns the registered session unchanged,
without calling `resume` or `create` (its trace is exactly the probe and
the extension). -/
theorem c1_two_sequential_calls_one_create
    (env1 env2 : Env) (p t : String) (team tok : Option String)
    (st0 : SBState) (h1 : String) (st1 : SBState) (tr1 : List Ev)
    (hcall1 : getOrCreateProjectSandbox env1 p t team tok st0 = (.ok h1, st1, tr1))
    (halive : env2.isRunning h1 = .ok true)
    (hext : env2.setTimeoutRes h1 = .ok ()) :
    getOrCreateProjectSandbox env2 p t team tok st1 =
      (.ok h1, resetSandboxTimeout p st1,
       [.isRunning h1, .setTimeoutCall h1 SANDBOX_TIMEOUT]) ∧
    createCount (tr1 ++ [.isRunning h1, .setTimeoutCall h1 SANDBOX_TIMEOUT]) ≤ 1 := by
  obtain ⟨hi0, hi1, hreg, htimer⟩ := ensure_ok_facts hcall1
  refine ⟨ensure_fastpath_eq t team tok hi1 hreg halive hext, ?_⟩
  have hc := ensure_createCount env1 p t team tok st0
  rw [hcall1] at hc
  simp [createCount, countEv_append, countEv, Ev.isCreateEv] at hc ⊢
  omega

theorem c1_two_sequential_calls_one_create_witness :
    getOrCreateProjectSandbox okEnv "p1" "tpl" none none s0 =
      (.ok "hCreated",
       ⟨[("p1", "hCreated")], [("p1", SANDBOX_TIMEOUT)], true⟩,
       [.storeSelect "p1", .createCall "tpl" SANDBOX_TIMEOUT,
        .storeUpdateSandboxId "p1" (some "hCreated") false]) ∧
    okEnv.isRunning "hCreated" = .ok true ∧
    okEnv.setTimeoutRes "hCreated" = .ok () ∧
    (getOrCreateProjectSandbox okEnv "p1" "tpl" none none
        ⟨[("p1", "hCreated")], [("p1", SANDBOX_TIMEOUT)], true⟩ =
       (.ok "hCreated",
        resetSandboxTimeout "p1"
          ⟨[("p1", "hCreated")], [("p1", SANDBOX_TIMEOUT)], true⟩,
        [.isRunning "hCreated", .setTimeoutCall "hCreated" SANDBOX_TIMEOUT]) ∧
     createCount
       ([.storeSelect "p1", .createCall "tpl" SANDBOX_TIMEOUT,
         .storeUpdateSandboxId "p1" (some "hCreated") false] ++
        [.isRunning "hCreated", .setTimeoutCall "hCreated" SANDBOX_TIMEOUT]) ≤ 1) :=
  ⟨rfl, rfl, rfl,
   c1_two_sequential_calls_one_create okEnv okEnv "p1" "tpl" none none s0
     "hCreated" _ _ rfl rfl rfl⟩

/-- C6: (a) arming the inactivity timer cancels any prior timer for the
project, leaving exactly one pending timer for it and touching no other
project's timer.  (b) When a timer fires, its callback triggers exactly a
pause of that project — the fire trace never contains a `kill`, and when
the project is registered and the provider pause resolves, exactly one
pause call occurs and the project is removed from the live registry (and
its timer cancelled).  (c) The provider-side durations requested on
extension/resume/create all equal `SANDBOX_TIMEOUT`, and a successful call
leaves the local timer scheduled with that same duration. -/
theorem c6_timer_arming_and_fire
    : (∀ (p q : String) (s : SBState),
         mget p (setSandboxTimeout p s).sandboxTimeouts = some SANDBOX_TIMEOUT ∧
         keyCount q (setSandboxTimeout p s).sandboxTimeouts =
           (if p = q then 1 else keyCount q s.sandboxTimeouts)) ∧
      (∀ (env : Env) (p : String) (s : SBState),
         killCount (onSandboxTimeoutFire env p s).2 = 0 ∧
         (∀ hdl newId, s.isInitialized = true →
            mget p s.activeSandboxes = some hdl →
            env.pauseRes hdl = .ok newId →
            pauseCount (onSandboxTimeoutFire env p s).2 = 1 ∧
            mget p (onSandboxTimeoutFire env p s).1.activeSandboxes = none ∧
            mget p (onSandboxTimeoutFire env p s).1.sandboxTimeouts = none)) ∧
      (∀ (env : Env) (p t : String) (team tok : Option String) (s : SBState),
         (∀ e ∈ (getOrCreateProjectSandbox env p t team tok s).2.2,
            Ev.msOk e = true) ∧
         (∀ hdl s' tr,
            getOrCreateProjectSandbox env p t team tok s = (.ok hdl, s', tr) →
            mget p s'.sandboxTimeouts = some SANDBOX_TIMEOUT)) := by
  refine ⟨?_, ?_, ?_⟩
  · intro p q s
    constructor
    · rw [mget_setSandboxTimeout]
      simp
    · exact keyCount_setSandboxTimeout p q s
  · intro env p s
    constructor
    · rw [onSandboxTimeoutFire_eq]
      exact countEv_zero_of_all
        (fun e he => fromPause_not_kill e (pause_kinds env p s e he))
    · intro hdl newId hinit hreg hok
      rw [onSandboxTimeoutFire_eq, pause_success_eq hinit hreg hok]
      refine ⟨?_, ?_, ?_⟩
      · by_cases hs : env.hasSupabase <;>
          simp [pauseCount, countEv, Ev.isPauseEv, hs]
      · simp [clearSandboxTimeout, mget_mdel_self]
      · simp [clearSandboxTimeout, mget_mdel_self]
  · intro env p t team tok s
    constructor
    · intro e he
      exact msOk_of_fromEnsure e (ensure_kinds env p t team tok s e he)
    · intro hdl s' tr h
      exact (ensure_ok_facts h).2.2.2.1

theorem c6_timer_arming_and_fire_witness :
    (mget "p1" (setSandboxTimeout "p1" s0).sandboxTimeouts = some SANDBOX_TIMEOUT ∧
     keyCount "p1" (setSandboxTimeout "p1" s0).sandboxTimeouts =
       (if "p1" = "p1" then 1 else keyCount "p1" s0.sandboxTimeouts)) ∧
    killCount (onSandboxTimeoutFire okEnv "p1" s1reg).2 = 0 ∧
    (s1reg.isInitialized = true ∧
     mget "p1" s1reg.activeSandboxes = some "h0" ∧
     okEnv.pauseRes "h0" = .ok "h0") ∧
    (pauseCount (onSandboxTimeoutFire okEnv "p1" s1reg).2 = 1 ∧
     mget "p1" (onSandboxTimeoutFire okEnv "p1" s1reg).1.activeSandboxes = none ∧
     mget "p1" (onSandboxTimeoutFire okEnv "p1" s1reg).1.sandboxTimeouts = none) ∧
    getOrCreateProjectSandbox okEnv "p1" "tpl" none none s0 =
      (.ok "hCreated",
       ⟨[("p1", "hCreated")], [("p1", SANDBOX_TIMEOUT)], true⟩,
       [.storeSelect "p1", .createCall "tpl" SANDBOX_TIMEOUT,
        .storeUpdateSandboxId "p1" (some "hCreated") false]) ∧
    mget "p1" (SBState.mk [("p1", "hCreated")] [("p1", SANDBOX_TIMEOUT)]
        true).sandboxTimeouts = some SANDBOX_TIMEOUT :=
  ⟨c6_timer_arming_and_fire.1 "p1" "p1" s0,
   (c6_timer_arming_and_fire.2.1 okEnv "p1" s1reg).1,
   ⟨rfl, rfl, rfl⟩,
   (c6_timer_arming_and_fire.2.1 okEnv "p1" s1reg).2 "h0" "h0" rfl rfl rfl,
   rfl,
   (c6_timer_arming_and_fire.2.2 okEnv "p1" "tpl" none none s0).2 "hCreated"
     ⟨[("p1", "hCreated")], [("p1", SANDBOX_TIMEOUT)], true⟩
     [.storeSelect "p1", .createCall "tpl" SANDBOX_TIMEOUT,
      .storeUpdateSandboxId "p1" (some "hCreated") false] rfl⟩

/-- C7 counterexample: with "p1" registered to the stale handle "h0", a
probe reporting not-running and no Supabase client, the call throws
(wrapped `SANDBOX_CREATE_ERROR`) and afterwards the registry still maps
"p1" to the stale session — the claim that the stale registry entry is
discarded whether the call succeeds or throws is false on the code. -/
theorem c7_stale_entry_not_always_discarded_cex :
    getOrCreateProjectSandbox probeFalseNoStoreEnv "p1" "tpl" none none s1reg =
      (.error (svcCreateErr "p1"), s1reg, [.isRunning "h0"]) ∧
    mget "p1" s1reg.activeSandboxes = some "h0" := ⟨rfl, rfl⟩

/-- C7 (amended): when a registered session's liveness probe fails or
reports not-alive, the call falls through to the resume/create tiers; if
the call succeeds, the stale registry binding is overwritten by the freshly
resumed or created handle; but if the call throws, the service state is
unchanged and the registry still maps the project to the stale session. -/
theorem c7_stale_entry_discarded_on_success
    (env : Env) (p t : String) (team tok : Option String) (s : SBState)
    (hstale : String) (r : Except SvcError String) (s' : SBState) (tr : List Ev)
    (hinit : s.isInitialized = true)
    (hreg : mget p s.activeSandboxes = some hstale)
    (hprobe : env.isRunning hstale = .ok false ∨ env.isRunning hstale = .error ())
    (hrun : getOrCreateProjectSandbox env p t team tok s = (r, s', tr)) :
    match r with
    | .ok hdl =>
        s'.activeSandboxes = mset p hdl s.activeSandboxes ∧
        ((∃ sid, env.selectRes p = some (some sid) ∧ env.resumeRes sid = .ok hdl) ∨
         env.createRes = .ok hdl)
    | .error _ => s' = s ∧ mget p s'.activeSandboxes = some hstale := by
  rw [ensure_probefail_eq t team tok hinit hreg hprobe] at hrun
  cases r with
  | ok hdl =>
      have hfacts := resumeOrCreate_ok_facts hrun
      have hprov := resumeOrCreate_ok_provenance hrun
      exact ⟨by rw [hfacts, setSandboxTimeout_active], hprov⟩
  | error e =>
      have hst := resumeOrCreate_error_facts hrun
      exact ⟨hst, hst ▸ hreg⟩

theorem c7_stale_entry_discarded_on_success_witness :
    s1reg.isInitialized = true ∧
    mget "p1" s1reg.activeSandboxes = some "h0" ∧
    (probeFalseEnv.isRunning "h0" = .ok false ∨
     probeFalseEnv.isRunning "h0" = .error ()) ∧
    getOrCreateProjectSandbox probeFalseEnv "p1" "tpl" none none s1reg =
      (.ok "hCreated",
       ⟨[("p1", "hCreated")], [("p1", SANDBOX_TIMEOUT)], true⟩,
       [.isRunning "h0", .storeSelect "p1", .createCall "tpl" SANDBOX_TIMEOUT,
        .storeUpdateSandboxId "p1" (some "hCreated") false]) ∧
    ((SBState.mk [("p1", "hCreated")] [("p1", SANDBOX_TIMEOUT)] true).activeSandboxes =
       mset "p1" "hCreated" s1reg.activeSandboxes ∧
     ((∃ sid, probeFalseEnv.selectRes "p1" = some (some sid) ∧
         probeFalseEnv.resumeRes sid = .ok "hCreated") ∨
      probeFalseEnv.createRes = .ok "hCreated")) :=
  ⟨rfl, rfl, .inl rfl, rfl,
   c7_stale_entry_discarded_on_success probeFalseEnv "p1" "tpl" none none s1reg
     "h0" (.ok "hCreated")
     ⟨[("p1", "hCreated")], [("p1", SANDBOX_TIMEOUT)], true⟩
     [.isRunning "h0", .storeSelect "p1", .createCall "tpl" SANDBOX_TIMEOUT,
      .storeUpdateSandboxId "p1" (some "hCreated") false]
     rfl rfl (.inl rfl) rfl⟩

/-- C8 counterexample: two concurrent `getOrCreateProjectSandbox` calls for
the same project ("p1") that both miss the registry — interleaved at the
`await` boundaries of the source (the small-step machine `stepEnsure`,
faithful to the monolithic function by `stepN_complete`) — both run to
successful completion, invoking the provider's `create` twice with no
`kill` or `pause` in between: two LIVE remote sessions ("hCreated" and
"hB") exist for one project and the registry keeps only the second, so the
at-most-one-LIVE-session invariant is violated, refuting the claim. -/
theorem c8_concurrent_double_create_cex :
    runSchedule okEnv createBEnv "p1" "t" "t" raceSchedule
        ⟨.start, .start, s0, []⟩ =
      ⟨.finished (.ok "hCreated"), .finished (.ok "hB"),
       ⟨[("p1", "hB")], [("p1", SANDBOX_TIMEOUT)], true⟩,
       [.storeSelect "p1", .createCall "t" SANDBOX_TIMEOUT,
        .storeUpdateSandboxId "p1" (some "hCreated") false,
        .storeSelect "p1", .createCall "t" SANDBOX_TIMEOUT,
        .storeUpdateSandboxId "p1" (some "hB") false]⟩ ∧
    createCount (runSchedule okEnv createBEnv "p1" "t" "t" raceSchedule
        ⟨.start, .start, s0, []⟩).tr = 2 ∧
    killCount (runSchedule okEnv createBEnv "p1" "t" "t" raceSchedule
        ⟨.start, .start, s0, []⟩).tr = 0 ∧
    pauseCount (runSchedule okEnv createBEnv "p1" "t" "t" raceSchedule
        ⟨.start, .start, s0, []⟩).tr = 0 := ⟨rfl, rfl, rfl, rfl⟩

/-- C8 (amended): under sequential (non-overlapping) execution the
invariant holds — a single call invokes `create` at most once and preserves
at-most-one-registry-binding per project, and the small-step machine that
exposes the `await`-boundary interleavings agrees with the monolithic
function when a call runs alone.  Under concurrency the invariant does NOT
hold: two overlapping calls that both miss the registry can each invoke
`create` (see the counterexample), the known race of spec §5. -/
theorem c8_sequential_safe_concurrent_race :
    (∀ (env : Env) (p t : String) (team tok : Option String) (s : SBState)
       (q : String),
       keyCount q s.activeSandboxes ≤ 1 →
       keyCount q (getOrCreateProjectSandbox env p t team tok s).2.1.activeSandboxes ≤ 1) ∧
    (∀ (env : Env) (p t : String) (team tok : Option String) (s : SBState),
       createCount (getOrCreateProjectSandbox env p t team tok s).2.2 ≤ 1) ∧
    (∀ (env : Env) (p t : String) (team tok : Option String) (s : SBState),
       stepN env p t 7 (.start, s, []) =
         (.finished (getOrCreateProjectSandbox env p t team tok s).1,
          (getOrCreateProjectSandbox env p t team tok s).2.1,
          (getOrCreateProjectSandbox env p t team tok s).2.2)) := by
  refine ⟨?_, ensure_createCount, stepN_complete⟩
  intro env p t team tok s q hq
  rcases outcome_active_shape env p t team tok s with h | ⟨hdl, h⟩ <;> rw [h]
  · exact hq
  · rw [keyCount_mset]
    by_cases hpq : p = q
    · simp [hpq]
    · simpa [hpq] using hq

theorem c8_sequential_safe_concurrent_race_witness :
    keyCount "p1" s1reg.activeSandboxes ≤ 1 ∧
    keyCount "p1"
      (getOrCreateProjectSandbox okEnv "p1" "tpl" none none
        s1reg).2.1.activeSandboxes ≤ 1 ∧
    createCount (getOrCreateProjectSandbox okEnv "p1" "tpl" none none s0).2.2 ≤ 1 ∧
    stepN okEnv "p1" "tpl" 7 (.start, s0, []) =
      (.finished (getOrCreateProjectSandbox okEnv "p1" "tpl" none none s0).1,
       (getOrCreateProjectSandbox okEnv "p1" "tpl" none none s0).2.1,
       (getOrCreateProjectSandbox okEnv "p1" "tpl" none none s0).2.2) :=
  ⟨by decide,
   c8_sequential_safe_concurrent_race.1 okEnv "p1" "tpl" none none s1reg "p1"
     (by decide),
   c8_sequential_safe_concurrent_race.2.1 okEnv "p1" "tpl" none none s0,
   c8_sequential_safe_concurrent_race.2.2 okEnv "p1" "tpl" none none s0⟩

/-- C9: the sandbox endpoint's POST handler.  (a) If `operation` is
"pause" or "resume" it invokes `executeSandboxOperation` and returns its
serialized result with status 200; if that operation throws, the response
is the generic `{error: message}` body with status 500.  (b) Otherwise a
missing fragment yields the client-error response (status 400) with the
service state untouched and no remote action (so `processFragment` is not
invoked).  (c) Otherwise `processFragment`'s result is serialized with
status 200, and any error it throws becomes the generic `{error: message}`
body with status 500. -/
theorem c9_route_dispatch
    (env : Env) (p : String) (req : SandboxRequest) (s : SBState) :
    ((req.operation = some .pause ∨ req.operation = some .resume) →
       ∀ r s1 t1,
         executeSandboxOperation env p
           (if req.operation = some .pause then .pause else .resume)
           (some ⟨req.userID, req.teamID, req.accessToken⟩) s = (r, s1, t1) →
         routePOST env p req s =
           ((match r with
             | .ok b => ApiResponse.mk 200 (.opResult b)
             | .error e => ApiResponse.mk 500 (.errBody e.message)), s1, t1)) ∧
    (¬ (req.operation = some .pause ∨ req.operation = some .resume) →
       req.fragment = none →
       routePOST env p req s = (⟨400, .errBody "Fragment required"⟩, s, [])) ∧
    (∀ fr, ¬ (req.operation = some .pause ∨ req.operation = some .resume) →
       req.fragment = some fr →
       ∀ r s1 t1,
         processFragment env p fr ⟨req.userID, req.teamID, req.accessToken⟩ s =
           (r, s1, t1) →
         routePOST env p req s =
           ((match r with
             | .ok x => ApiResponse.mk 200 (.execResult x)
             | .error e => ApiResponse.mk 500 (.errBody e.message)), s1, t1)) := by
  refine ⟨?_, ?_, ?_⟩
  · intro hop r s1 t1 hexec
    simp only [routePOST, if_pos hop, hexec]
    cases r <;> rfl
  · intro hop hfr
    simp [routePOST, if_neg hop, hfr]
  · intro fr hop hfr r s1 t1 hproc
    simp only [routePOST, if_neg hop, hfr, hproc]
    cases r <;> rfl

theorem c9_route_dispatch_witness :
    (reqPause.operation = some .pause ∨ reqPause.operation = some .resume) ∧
    executeSandboxOperation okEnv "p1"
      (if reqPause.operation = some .pause then .pause else .resume)
      (some ⟨reqPause.userID, reqPause.teamID, reqPause.accessToken⟩) s1reg =
      (.ok true, ⟨[], [], true⟩,
       [.pauseCall "h0", .storeUpdateSandboxId "p1" (some "h0") false]) ∧
    routePOST okEnv "p1" reqPause s1reg =
      (⟨200, .opResult true⟩, ⟨[], [], true⟩,
       [.pauseCall "h0", .storeUpdateSandboxId "p1" (some "h0") false]) ∧
    routePOST okEnv "p1" reqEmpty s0 =
      (⟨400, .errBody "Fragment required"⟩, s0, []) ∧
    routePOST okEnv "p1" reqWeb s0 =
      (⟨200, .execResult
          (.web "hCreated" "nextjs-developer" "https://hCreated-3000.e2b.dev")⟩,
       ⟨[("p1", "hCreated")], [("p1", SANDBOX_TIMEOUT)], true⟩,
       [.storeSelect "p1", .createCall "nextjs-developer" SANDBOX_TIMEOUT,
        .storeUpdateSandboxId "p1" (some "hCreated") false,
        .writeFile "hCreated" "app.tsx" "code",
        .storeUpdateActivity "p1" false,
        .getHostCall "hCreated" 3000,
        .analyticsTrack "https://hCreated-3000.e2b.dev" "p1"]) :=
  ⟨.inl rfl, rfl,
   (c9_route_dispatch okEnv "p1" reqPause s1reg).1 (.inl rfl) (.ok true)
     ⟨[], [], true⟩
     [.pauseCall "h0", .storeUpdateSandboxId "p1" (some "h0") false] rfl,
   (c9_route_dispatch okEnv "p1" reqEmpty s0).2.1 (by simp [reqEmpty]) rfl,
   (c9_route_dispatch okEnv "p1" reqWeb s0).2.2 frWeb (by simp [reqWeb]) rfl
     (.ok (.web "hCreated" "nextjs-developer" "https://hCreated-3000.e2b.dev"))
     ⟨[("p1", "hCreated")], [("p1", SANDBOX_TIMEOUT)], true⟩
     [.storeSelect "p1", .createCall "nextjs-developer" SANDBOX_TIMEOUT,
      .storeUpdateSandboxId "p1" (some "hCreated") false,
      .writeFile "hCreated" "app.tsx" "code",
      .storeUpdateActivity "p1" false,
      .getHostCall "hCreated" 3000,
      .analyticsTrack "https://hCreated-3000.e2b.dev" "p1"] rfl⟩

/-- C10: every public operation of the service
(`getOrCreateProjectSandbox`, `pauseProject`, `killProject`,
`killAllSandboxes`, `getActiveSandbox`, `cleanupInactiveSandboxes`,
`processFragment`, `executeSandboxOperation`) first runs the
`ensureInitialized` guard: on a state where `initialize()` has not
completed, each call throws the not-initialized error and performs no
provider, store, registry, or timer action (state unchanged, empty trace). -/
theorem c10_uninitialized_guard
    (env : Env) (p t : String) (team tok : Option String)
    (fragment : FragmentSchema) (auth : FragmentProcessingAuth)
    (op : SbxOperation) (oauth : Option FragmentProcessingAuth) (s : SBState)
    (h : s.isInitialized = false) :
    getOrCreateProjectSandbox env p t team tok s = (.error notInitErr, s, []) ∧
    pauseProject env p s = (.error notInitErr, s, []) ∧
    killProject env p s = (.error notInitErr, s, []) ∧
    killAllSandboxes env s = (.error notInitErr, s, []) ∧
    getActiveSandbox p s = (.error notInitErr, s, []) ∧
    cleanupInactiveSandboxes env s = (.error notInitErr, s, []) ∧
    processFragment env p fragment auth s = (.error notInitErr, s, []) ∧
    executeSandboxOperation env p op oauth s = (.error notInitErr, s, []) := by
  refine ⟨?_, ?_, ?_, ?_, ?_, ?_, ?_, ?_⟩ <;>
    simp [getOrCreateProjectSandbox, pauseProject, killProject,
      killAllSandboxes, getActiveSandbox, cleanupInactiveSandboxes,
      processFragment, executeSandboxOperation, h]

theorem c10_uninitialized_guard_witness :
    sUninit.isInitialized = false ∧
    (getOrCreateProjectSandbox okEnv "p1" "tpl" none none sUninit =
       (.error notInitErr, sUninit, []) ∧
     pauseProject okEnv "p1" sUninit = (.error notInitErr, sUninit, []) ∧
     killProject okEnv "p1" sUninit = (.error notInitErr, sUninit, []) ∧
     killAllSandboxes okEnv sUninit = (.error notInitErr, sUninit, []) ∧
     getActiveSandbox "p1" sUninit = (.error notInitErr, sUninit, []) ∧
     cleanupInactiveSandboxes okEnv sUninit = (.error notInitErr, sUninit, []) ∧
     processFragment okEnv "p1" frWeb authNone sUninit =
       (.error notInitErr, sUninit, []) ∧
     executeSandboxOperation okEnv "p1" .pause (some authNone) sUninit =
       (.error notInitErr, sUninit, [])) :=
  ⟨rfl,
   c10_uninitialized_guard okEnv "p1" "tpl" none none frWeb authNone
     .pause (some authNone) sUninit rfl⟩

/-- C2: for every project with a persisted handle, if the provider's
resume rejects, `getOrCreateProjectSandbox` does not surface the resume
failure: it invokes `Sandbox.create` exactly once afterward (in trace
order, after the resume), and when create succeeds the whole operation
succeeds, registering the new session as live (in the registry with an
armed timer); when create also fails, the surfaced error is the
create-tier wrap, not the resume failure. -/
theorem c2_resume_failure_falls_through_to_create
    (env : Env) (p t : String) (team tok : Option String) (s : SBState)
    (sid : String)
    (hinit : s.isInitialized = true)
    (hreg : mget p s.activeSandboxes = none)
    (hsb : env.hasSupabase = true)
    (hsel : env.selectRes p = some (some sid))
    (hres : env.resumeRes sid = .error ()) :
    createCount (getOrCreateProjectSandbox env p t team tok s).2.2 = 1 ∧
    (∀ hdl, env.createRes = .ok hdl →
       getOrCreateProjectSandbox env p t team tok s =
         (.ok hdl,
          setSandboxTimeout p
            { s with activeSandboxes := mset p hdl s.activeSandboxes },
          [.storeSelect p, .resumeCall sid SANDBOX_TIMEOUT,
           .createCall t SANDBOX_TIMEOUT,
           .storeUpdateSandboxId p (some hdl) env.updateSandboxIdErr])) ∧
    (env.createRes = .error () →
       getOrCreateProjectSandbox env p t team tok s =
         (.error (svcCreateErr p), s,
          [.storeSelect p, .resumeCall sid SANDBOX_TIMEOUT,
           .createCall t SANDBOX_TIMEOUT])) := by
  rw [ensure_resumefail_eq t team tok hinit hreg hsb hsel hres]
  refine ⟨?_, ?_, ?_⟩
  · rw [createTier_createCount]
    simp [createCount, countEv, Ev.isCreateEv]
  · intro hdl hok
    rw [createTier_ok_eq p t _ s hok]
    simp
  · intro hko
    rw [createTier_error_eq p t _ s hko]
    simp

theorem c2_resume_failure_falls_through_to_create_witness :
    s0.isInitialized = true ∧
    mget "p1" s0.activeSandboxes = none ∧
    resumeFailEnv.hasSupabase = true ∧
    resumeFailEnv.selectRes "p1" = some (some "old") ∧
    resumeFailEnv.resumeRes "old" = .error () ∧
    createCount (getOrCreateProjectSandbox resumeFailEnv "p1" "tpl" none none s0).2.2 = 1 ∧
    resumeFailEnv.createRes = .ok "hCreated" ∧
    getOrCreateProjectSandbox resumeFailEnv "p1" "tpl" none none s0 =
      (.ok "hCreated",
       setSandboxTimeout "p1"
         { s0 with activeSandboxes := mset "p1" "hCreated" s0.activeSandboxes },
       [.storeSelect "p1", .resumeCall "old" SANDBOX_TIMEOUT,
        .createCall "tpl" SANDBOX_TIMEOUT,
        .storeUpdateSandboxId "p1" (some "hCreated") resumeFailEnv.updateSandboxIdErr]) := by
  have h := c2_resume_failure_falls_through_to_create resumeFailEnv "p1" "tpl"
    none none s0 "old" rfl rfl rfl rfl rfl
  exact ⟨rfl, rfl, rfl, rfl, rfl, h.1, rfl, h.2.1 "hCreated" rfl⟩

/-- C3: `processFragment` returns exactly one result variant determined by
the template.  (a) Template "code-interpreter-v1": the trace contains no
URL computation and no analytics emission, and a successful call returns an
`InterpreterResult` built from the provider's stdout/stderr/structured
results/runtime error.  (b) Any other template: the trace contains no code
execution; a successful call returns a `WebResult` whose URL is
`https://` ++ the session host at `fragment.port` (defaulted when absent
or 0), with the analytics event carrying that URL and the project id
emitted exactly then (when the analytics service exists); a failing call
emits no analytics event. -/
theorem c3_template_determines_result_variant :
    (∀ (env : Env) (p : String) (fragment : FragmentSchema)
       (auth : FragmentProcessingAuth) (s : SBState),
       fragment.template = "code-interpreter-v1" →
       countEv Ev.isGetHostEv (processFragment env p fragment auth s).2.2 = 0 ∧
       countEv Ev.isAnalyticsEv (processFragment env p fragment auth s).2.2 = 0 ∧
       (∀ r st' tr, processFragment env p fragment auth s = (.ok r, st', tr) →
          ∃ hdl rc, env.runCodeRes = .ok rc ∧
            r = .interpreter hdl fragment.template rc.stdout rc.stderr
                  rc.runtimeErr rc.results)) ∧
    (∀ (env : Env) (p : String) (fragment : FragmentSchema)
       (auth : FragmentProcessingAuth) (s : SBState),
       ¬ fragment.template = "code-interpreter-v1" →
       countEv Ev.isRunCodeEv (processFragment env p fragment auth s).2.2 = 0 ∧
       (∀ r st' tr, processFragment env p fragment auth s = (.ok r, st', tr) →
          ∃ hdl, r = .web hdl fragment.template
              ("https://" ++ env.getHost hdl (fragmentPort fragment)) ∧
            (env.hasAnalytics = true →
              .analyticsTrack
                ("https://" ++ env.getHost hdl (fragmentPort fragment)) p ∈ tr)) ∧
       (∀ e st' tr, processFragment env p fragment auth s = (.error e, st', tr) →
          countEv Ev.isAnalyticsEv tr = 0)) := by
  constructor
  · intro env p fragment auth s htpl
    rcases hg : getOrCreateProjectSandbox env p fragment.template auth.teamId
      auth.accessToken s with ⟨r1, s1, t1⟩
    have hz := ensure_no_exec_events env p fragment.template auth.teamId
      auth.accessToken s
    rw [hg] at hz
    dsimp only at hz
    by_cases hinit : s.isInitialized
    · cases r1 with
      | error e1 =>
          have hpf : processFragment env p fragment auth s =
              (.error (svcFragmentErr p), s1, t1) := by
            simp [processFragment, hinit, hg]
          rw [hpf]
          exact ⟨hz.1, hz.2.1, fun r st' tr hcon => by simp at hcon⟩
      | ok sbx =>
          have hpf : processFragment env p fragment auth s =
              deployPhase env p fragment auth sbx t1 s1 := by
            simp [processFragment, hinit, hg]
          rw [hpf]
          refine ⟨?_, ?_, ?_⟩
          · rw [(deployPhase_interp_counts htpl).1, hz.1]
          · rw [(deployPhase_interp_counts htpl).2, hz.2.1]
          · intro r st' tr hok
            obtain ⟨rc, hrc, hr⟩ := deployPhase_interp_ok htpl hok
            exact ⟨sbx, rc, hrc, hr⟩
    · have hpf : processFragment env p fragment auth s =
          (.error notInitErr, s, []) := by
        simp [processFragment, hinit]
      rw [hpf]
      exact ⟨rfl, rfl, fun r st' tr hcon => by simp at hcon⟩
  · intro env p fragment auth s htpl
    rcases hg : getOrCreateProjectSandbox env p fragment.template auth.teamId
      auth.accessToken s with ⟨r1, s1, t1⟩
    have hz := ensure_no_exec_events env p fragment.template auth.teamId
      auth.accessToken s
    rw [hg] at hz
    dsimp only at hz
    by_cases hinit : s.isInitialized
    · cases r1 with
      | error e1 =>
          have hpf : processFragment env p fragment auth s =
              (.error (svcFragmentErr p), s1, t1) := by
            simp [processFragment, hinit, hg]
          rw [hpf]
          refine ⟨hz.2.2, fun r st' tr hcon => by simp at hcon, ?_⟩
          intro e st' tr hcon
          simp only [Prod.mk.injEq, Except.error.injEq] at hcon
          rw [← hcon.2.2]
          exact hz.2.1
      | ok sbx =>
          have hpf : processFragment env p fragment auth s =
              deployPhase env p fragment auth sbx t1 s1 := by
            simp [processFragment, hinit, hg]
          rw [hpf]
          refine ⟨?_, ?_, ?_⟩
          · rw [deployPhase_web_no_runcode htpl, hz.2.2]
          · intro r st' tr hok
            obtain ⟨hr, hmem⟩ := deployPhase_web_ok htpl hok
            exact ⟨sbx, hr, hmem⟩
          · intro e st' tr hcon
            exact deployPhase_error_no_analytics hz.2.1 hcon
    · have hpf : processFragment env p fragment auth s =
          (.error notInitErr, s, []) := by
        simp [processFragment, hinit]
      rw [hpf]
      refine ⟨rfl, fun r st' tr hcon => by simp at hcon, ?_⟩
      intro e st' tr hcon
      simp only [Prod.mk.injEq, Except.error.injEq] at hcon
      rw [← hcon.2.2]
      rfl

theorem c3_template_determines_result_variant_witness :
    frPy.template = "code-interpreter-v1" ∧
    ¬ frWeb.template = "code-interpreter-v1" ∧
    processFragment okEnv "p1" frPy authNone s0 =
      (.ok (.interpreter "hCreated" "code-interpreter-v1" ["2"] [] none []),
       ⟨[("p1", "hCreated")], [("p1", SANDBOX_TIMEOUT)], true⟩,
       [.storeSelect "p1", .createCall "code-interpreter-v1" SANDBOX_TIMEOUT,
        .storeUpdateSandboxId "p1" (some "hCreated") false,
        .writeFile "hCreated" "main.py" "print(1+1)",
        .storeUpdateActivity "p1" false,
        .runCodeCall "hCreated" "print(1+1)"]) ∧
    processFragment okEnv "p1" frWeb authNone s0 =
      (.ok (.web "hCreated" "nextjs-developer" "https://hCreated-3000.e2b.dev"),
       ⟨[("p1", "hCreated")], [("p1", SANDBOX_TIMEOUT)], true⟩,
       [.storeSelect "p1", .createCall "nextjs-developer" SANDBOX_TIMEOUT,
        .storeUpdateSandboxId "p1" (some "hCreated") false,
        .writeFile "hCreated" "app.tsx" "code",
        .storeUpdateActivity "p1" false,
        .getHostCall "hCreated" 3000,
        .analyticsTrack "https://hCreated-3000.e2b.dev" "p1"]) ∧
    (countEv Ev.isGetHostEv (processFragment okEnv "p1" frPy authNone s0).2.2 = 0 ∧
     countEv Ev.isAnalyticsEv (processFragment okEnv "p1" frPy authNone s0).2.2 = 0) ∧
    (∃ hdl rc, okEnv.runCodeRes = .ok rc ∧
       (ExecutionResult.interpreter "hCreated" "code-interpreter-v1" ["2"] [] none []) =
         .interpreter hdl frPy.template rc.stdout rc.stderr rc.runtimeErr rc.results) ∧
    countEv Ev.isRunCodeEv (processFragment okEnv "p1" frWeb authNone s0).2.2 = 0 ∧
    (∃ hdl, (ExecutionResult.web "hCreated" "nextjs-developer"
               "https://hCreated-3000.e2b.dev") =
        .web hdl frWeb.template ("https://" ++ okEnv.getHost hdl (fragmentPort frWeb)) ∧
      (okEnv.hasAnalytics = true →
        .analyticsTrack ("https://" ++ okEnv.getHost hdl (fragmentPort frWeb)) "p1" ∈
          [Ev.storeSelect "p1", .createCall "nextjs-developer" SANDBOX_TIMEOUT,
           .storeUpdateSandboxId "p1" (some "hCreated") false,
           .writeFile "hCreated" "app.tsx" "code",
           .storeUpdateActivity "p1" false,
           .getHostCall "hCreated" 3000,
           .analyticsTrack "https://hCreated-3000.e2b.dev" "p1"])) := by
  have hA := c3_template_determines_result_variant.1 okEnv "p1" frPy authNone s0 rfl
  have hB := c3_template_determines_result_variant.2 okEnv "p1" frWeb authNone s0
    (by decide)
  exact ⟨rfl, by decide, rfl, rfl, ⟨hA.1, hA.2.1⟩, hA.2.2 _ _ _ rfl, hB.1,
    hB.2.1 _ _ _ rfl⟩

/-- C4 counterexample: when the provider-side kill rejects, `killProject`
logs the error and clears the persisted handle to null, but it does NOT
remove the registry entry or the timer (the `delete`/`clearSandboxTimeout`
lines sit after the `await sandbox.kill()` inside the try block and are
skipped on rejection) — refuting the claim that local bookkeeping is
removed regardless of whether the provider-side kill succeeded. -/
theorem c4_kill_failure_keeps_registry_cex :
    killProject killFailEnv "p1" s1reg =
      (.ok (), s1reg,
       [.killCall "h0", .storeUpdateSandboxId "p1" none false]) ∧
    mget "p1" s1reg.activeSandboxes = some "h0" ∧
    mget "p1" s1reg.sandboxTimeouts = some SANDBOX_TIMEOUT := ⟨rfl, rfl, rfl⟩

/-- C4 (amended): `killProject` logs provider-side kill errors without
raising them and clears the persisted handle to null regardless of the
kill's outcome, but it removes the registry entry and timer only when the
provider-side kill succeeds (on rejection the local state is untouched);
`killAllSandboxes` attempts kill on every currently tracked project exactly
once, and failure of one project's kill prevents neither the other projects
from being attempted nor their handle clears, nor — for projects whose own
kill succeeds — their registry entries from being removed. -/
theorem c4_kill_best_effort_batch :
    (∀ (env : Env) (p : String) (s : SBState) (hdl : String),
       s.isInitialized = true →
       mget p s.activeSandboxes = some hdl →
       (killProject env p s).1 = .ok () ∧
       (env.hasSupabase = true →
         Ev.storeUpdateSandboxId p none env.updateClearErr ∈
           (killProject env p s).2.2) ∧
       (env.killRes hdl = .ok () →
         mget p (killProject env p s).2.1.activeSandboxes = none ∧
         mget p (killProject env p s).2.1.sandboxTimeouts = none) ∧
       (env.killRes hdl = .error () → (killProject env p s).2.1 = s)) ∧
    (∀ (env : Env) (s : SBState),
       s.isInitialized = true →
       (s.activeSandboxes.map Prod.fst).Nodup →
       killCount (killAllSandboxes env s).2.2 = s.activeSandboxes.length ∧
       (∀ pr ∈ s.activeSandboxes,
          Ev.killCall pr.2 ∈ (killAllSandboxes env s).2.2 ∧
          (env.hasSupabase = true →
            Ev.storeUpdateSandboxId pr.1 none env.updateClearErr ∈
              (killAllSandboxes env s).2.2) ∧
          (env.killRes pr.2 = .ok () →
            mget pr.1 (killAllSandboxes env s).2.1.activeSandboxes = none))) := by
  constructor
  · intro env p s hdl hinit hreg
    exact ⟨killProject_never_throws env p s hinit,
      (killProject_trace_mem hinit hreg).2,
      fun hk => killProject_self_ok hinit hreg hk,
      fun hk => killProject_fail_state hinit hreg hk⟩
  · intro env s hinit hnd
    have hfacts := killAllLoop_facts env (s.activeSandboxes.map Prod.fst) s hinit hnd
    have hproj2 : (killAllSandboxes env s).2.2 =
        (killAllLoop env (s.activeSandboxes.map Prod.fst) s).2 := by
      simp [killAllSandboxes, hinit]
    have hproj1 : (killAllSandboxes env s).2.1 =
        (killAllLoop env (s.activeSandboxes.map Prod.fst) s).1 := by
      simp [killAllSandboxes, hinit]
    constructor
    · rw [hproj2, hfacts.2]
      have hfull : (s.activeSandboxes.map Prod.fst).filter
          (fun p => (mget p s.activeSandboxes).isSome) =
          s.activeSandboxes.map Prod.fst :=
        List.filter_eq_self.mpr (fun x hx => mget_isSome_of_mem_keys hx)
      rw [hfull, List.length_map]
    · intro pr hpr
      have hkeys : pr.1 ∈ s.activeSandboxes.map Prod.fst :=
        List.mem_map_of_mem Prod.fst hpr
      have hreg := mget_of_mem_nodup hnd hpr
      have h1 := hfacts.1 pr.1 hkeys pr.2 hreg
      rw [hproj2, hproj1]
      exact h1

theorem c4_kill_best_effort_batch_witness :
    s1reg.isInitialized = true ∧
    mget "p1" s1reg.activeSandboxes = some "h0" ∧
    ((killProject okEnv "p1" s1reg).1 = .ok () ∧
     (okEnv.hasSupabase = true →
       Ev.storeUpdateSandboxId "p1" none okEnv.updateClearErr ∈
         (killProject okEnv "p1" s1reg).2.2) ∧
     (okEnv.killRes "h0" = .ok () →
       mget "p1" (killProject okEnv "p1" s1reg).2.1.activeSandboxes = none ∧
       mget "p1" (killProject okEnv "p1" s1reg).2.1.sandboxTimeouts = none) ∧
     (okEnv.killRes "h0" = .error () → (killProject okEnv "p1" s1reg).2.1 = s1reg)) ∧
    (s1reg.activeSandboxes.map Prod.fst).Nodup ∧
    (killCount (killAllSandboxes okEnv s1reg).2.2 = s1reg.activeSandboxes.length ∧
     (∀ pr ∈ s1reg.activeSandboxes,
        Ev.killCall pr.2 ∈ (killAllSandboxes okEnv s1reg).2.2 ∧
        (okEnv.hasSupabase = true →
          Ev.storeUpdateSandboxId pr.1 none okEnv.updateClearErr ∈
            (killAllSandboxes okEnv s1reg).2.2) ∧
        (okEnv.killRes pr.2 = .ok () →
          mget pr.1 (killAllSandboxes okEnv s1reg).2.1.activeSandboxes = none))) :=
  ⟨rfl, rfl,
   c4_kill_best_effort_batch.1 okEnv "p1" s1reg "h0" rfl rfl,
   by decide,
   c4_kill_best_effort_batch.2 okEnv s1reg rfl (by decide)⟩

/-- C5: persistence failures never propagate to the caller.  (a) When the
post-create `update({sandbox_id, last_activity})` reports an error, the
operation still succeeds with the in-memory session registered and the
timer armed (the failing write appears in the trace with its error flag).
(b) When the `update({last_activity})` of `updateProjectActivity` reports
an error during `processFragment`, the operation continues and succeeds
using the in-memory session (web branch shown; the failing write appears
in the trace inside `activityEvs`). -/
theorem c5_persistence_failures_not_propagated :
    (∀ (env : Env) (p t : String) (team tok : Option String) (s : SBState)
       (hdl : String),
       s.isInitialized = true →
       mget p s.activeSandboxes = none →
       env.hasSupabase = true →
       env.selectRes p = some none →
       env.createRes = .ok hdl →
       env.updateSandboxIdErr = true →
       getOrCreateProjectSandbox env p t team tok s =
         (.ok hdl,
          setSandboxTimeout p
            { s with activeSandboxes := mset p hdl s.activeSandboxes },
          [.storeSelect p, .createCall t SANDBOX_TIMEOUT,
           .storeUpdateSandboxId p (some hdl) true])) ∧
    (∀ (env : Env) (p : String) (fragment : FragmentSchema)
       (auth : FragmentProcessingAuth) (s : SBState) (hdl : String)
       (st1 : SBState) (tr1 : List Ev),
       getOrCreateProjectSandbox env p fragment.template auth.teamId
         auth.accessToken s = (.ok hdl, st1, tr1) →
       fragment.has_additional_dependencies = false →
       env.writeFileRes = .ok () →
       env.updateActivityErr = true →
       fragment.template ≠ "code-interpreter-v1" →
       processFragment env p fragment auth s =
         (.ok (.web hdl fragment.template
                 ("https://" ++ env.getHost hdl (fragmentPort fragment))),
          st1,
          tr1 ++ [.writeFile hdl fragment.file_path fragment.code] ++
            activityEvs env p auth.accessToken.isSome ++
            [.getHostCall hdl (fragmentPort fragment)] ++
            (if env.hasAnalytics then
              [.analyticsTrack
                 ("https://" ++ env.getHost hdl (fragmentPort fragment)) p]
            else []))) := by
  constructor
  · intro env p t team tok s hdl hinit hreg hsb hsel hok herr
    rw [ensure_nohandle_eq t team tok hinit hreg hsb hsel,
      createTier_ok_eq p t _ s hok, herr]
    simp
  · intro env p fragment auth s hdl st1 tr1 hcall hdeps hwrite hact htpl
    have hinit := (ensure_ok_facts hcall).1
    simp [processFragment, hinit, hcall, deployPhase, hdeps, writePhase,
      hwrite, execPhase, htpl]

theorem c5_persistence_failures_not_propagated_witness :
    updFailEnv.updateSandboxIdErr = true ∧
    updFailEnv.updateActivityErr = true ∧
    getOrCreateProjectSandbox updFailEnv "p1" "tpl" none none s0 =
      (.ok "hCreated",
       setSandboxTimeout "p1"
         { s0 with activeSandboxes := mset "p1" "hCreated" s0.activeSandboxes },
       [.storeSelect "p1", .createCall "tpl" SANDBOX_TIMEOUT,
        .storeUpdateSandboxId "p1" (some "hCreated") true]) ∧
    getOrCreateProjectSandbox updFailEnv "p1" frWeb.template authNone.teamId
      authNone.accessToken s0 =
      (.ok "hCreated",
       ⟨[("p1", "hCreated")], [("p1", SANDBOX_TIMEOUT)], true⟩,
       [.storeSelect "p1", .createCall "nextjs-developer" SANDBOX_TIMEOUT,
        .storeUpdateSandboxId "p1" (some "hCreated") true]) ∧
    processFragment updFailEnv "p1" frWeb authNone s0 =
      (.ok (.web "hCreated" frWeb.template
              ("https://" ++ updFailEnv.getHost "hCreated" (fragmentPort frWeb))),
       ⟨[("p1", "hCreated")], [("p1", SANDBOX_TIMEOUT)], true⟩,
       [.storeSelect "p1", .createCall "nextjs-developer" SANDBOX_TIMEOUT,
        .storeUpdateSandboxId "p1" (some "hCreated") true] ++
         [.writeFile "hCreated" frWeb.file_path frWeb.code] ++
         activityEvs updFailEnv "p1" authNone.accessToken.isSome ++
         [.getHostCall "hCreated" (fragmentPort frWeb)] ++
         (if updFailEnv.hasAnalytics then
           [.analyticsTrack
              ("https://" ++ updFailEnv.getHost "hCreated" (fragmentPort frWeb)) "p1"]
         else [])) := by
  have h := c5_persistence_failures_not_propagated
  refine ⟨rfl, rfl,
    h.1 updFailEnv "p1" "tpl" none none s0 "hCreated" rfl rfl rfl rfl rfl rfl,
    rfl,
    h.2 updFailEnv "p1" frWeb authNone s0 "hCreated"
      ⟨[("p1", "hCreated")], [("p1", SANDBOX_TIMEOUT)], true⟩
      [.storeSelect "p1", .createCall "nextjs-developer" SANDBOX_TIMEOUT,
       .storeUpdateSandboxId "p1" (some "hCreated") true]
      rfl rfl rfl rfl (by decide)⟩

end CeoDreamer
